import Mathlib

/-!
A verification development for the Great-Games excitement-scoring engine.

The JavaScript source is embedded shallowly:
* JS numbers that hold run counts, team ids and inning numbers are `ℕ`/`ℤ`;
  scoring arithmetic (which JS performs on doubles) is embedded over `ℚ`.
* `undefined`/missing object fields are `Option`; the JS `x || d` idiom with
  its falsiness on `0`/`""`/`undefined` is embedded explicitly where it occurs.
* The per-inning linescore entry `{num, away: {runs}, home: {runs}}` is
  flattened to `num`/`away`/`home`, where `away`/`home` are the optional
  `runs` numbers (`inning.away?.runs`).
-/

namespace GreatGames

/-- JS `Math.round` for the nonnegative arguments produced by the scorer:
`Math.round x = ⌊x + 1/2⌋`. -/
def jsRound (q : ℚ) : ℤ := ⌊q + 1/2⌋

/-- JS string truthiness: `undefined` and `""` are falsy. -/
def strTruthy : Option String → Bool
  | none => false
  | some s => s ≠ ""

/-- JS `a || b` on an optional string `a`. -/
def jsOrStr (a : Option String) (b : String) : String :=
  match a with
  | none => b
  | some s => if s = "" then b else s

/-- JS `a || b` on an optional number `a` (`0` is falsy). -/
def jsOrNat (a : Option ℕ) (b : ℕ) : ℕ :=
  match a with
  | none => b
  | some n => if n = 0 then b else n

/-- JS string interpolation of a possibly-`undefined` value. -/
def jsInterp : Option String → String
  | none => "undefined"
  | some s => s

/-- One linescore inning: `{num, away: {runs}, home: {runs}}` with the two
half-inning run counts possibly absent (`inning.away?.runs`). -/
structure Inning where
  num : ℕ
  away : Option ℕ
  home : Option ℕ
deriving DecidableEq, Repr

/-- State of `Parser.countLeadChanges`'s walk: the counter, the two running
cumulative scores, and `currentLeader` (a team id or `null`). -/
structure LeadState where
  leadChanges : ℕ
  awayScore : ℕ
  homeScore : ℕ
  currentLeader : Option ℕ
deriving DecidableEq, Repr

/-- The away half of one iteration of `Parser.countLeadChanges`:
guarded by `inning.away?.runs != null`. -/
def countLeadAwayHalf (awayTeamId : ℕ) (s : LeadState) (runs : Option ℕ) : LeadState :=
  match runs with
  | none => s
  | some r =>
    let awayScore := s.awayScore + r
    if awayScore > s.homeScore then
      { leadChanges :=
          if s.currentLeader ≠ some awayTeamId ∧ s.currentLeader ≠ none then
            s.leadChanges + 1
          else s.leadChanges,
        awayScore := awayScore,
        homeScore := s.homeScore,
        currentLeader := some awayTeamId }
    else
      { s with awayScore := awayScore }

/-- The home half of one iteration of `Parser.countLeadChanges`: symmetric to
the away half, and additionally resetting `currentLeader` to `null` when the
cumulative scores become exactly equal. -/
def countLeadHomeHalf (homeTeamId : ℕ) (s : LeadState) (runs : Option ℕ) : LeadState :=
  match runs with
  | none => s
  | some r =>
    let homeScore := s.homeScore + r
    if homeScore > s.awayScore then
      { leadChanges :=
          if s.currentLeader ≠ some homeTeamId ∧ s.currentLeader ≠ none then
            s.leadChanges + 1
          else s.leadChanges,
        awayScore := s.awayScore,
        homeScore := homeScore,
        currentLeader := some homeTeamId }
    else if homeScore = s.awayScore then
      { s with homeScore := homeScore, currentLeader := none }
    else
      { s with homeScore := homeScore }

/-- One inning of `Parser.countLeadChanges`: away half first, then home half. -/
def countLeadStep (awayTeamId homeTeamId : ℕ) (s : LeadState) (inning : Inning) : LeadState :=
  countLeadHomeHalf homeTeamId (countLeadAwayHalf awayTeamId s inning.away) inning.home

/-- `Parser.countLeadChanges(innings, awayTeamId, homeTeamId)`. -/
def countLeadChanges (innings : List Inning) (awayTeamId homeTeamId : ℕ) : ℕ :=
  (innings.foldl (countLeadStep awayTeamId homeTeamId)
    { leadChanges := 0, awayScore := 0, homeScore := 0, currentLeader := none }).leadChanges

/-- A side of the game, for the specification-level lead-change model. -/
inductive Side where
  | away
  | home
deriving DecidableEq, Repr

/-- Embed an abstract side back into the team id it stands for. -/
def sideId (awayTeamId homeTeamId : ℕ) : Side → ℕ
  | Side.away => awayTeamId
  | Side.home => homeTeamId

/-- State of the specification-level lead-change walk. -/
structure SpecLeadState where
  count : ℕ
  awayScore : ℕ
  homeScore : ℕ
  leader : Option Side
deriving DecidableEq, Repr

/-- Modelled from the spec's words (lead-change counting, §4.1): add the
inning's away runs; if away's cumulative total now exceeds home's and the
previous leader was the other side (not none), increment; set leader to away. -/
def specLeadAwayHalf (s : SpecLeadState) (runs : ℕ) : SpecLeadState :=
  let awayScore := s.awayScore + runs
  if awayScore > s.homeScore then
    { count := if s.leader = some Side.home then s.count + 1 else s.count,
      awayScore := awayScore,
      homeScore := s.homeScore,
      leader := some Side.away }
  else
    { s with awayScore := awayScore }

/-- Modelled from the spec's words (lead-change counting, §4.1): add the
inning's home runs and re-evaluate symmetrically; additionally, if the scores
become exactly equal, reset the leader to none. -/
def specLeadHomeHalf (s : SpecLeadState) (runs : ℕ) : SpecLeadState :=
  let homeScore := s.homeScore + runs
  if homeScore > s.awayScore then
    { count := if s.leader = some Side.away then s.count + 1 else s.count,
      awayScore := s.awayScore,
      homeScore := homeScore,
      leader := some Side.home }
  else if homeScore = s.awayScore then
    { s with homeScore := homeScore, leader := none }
  else
    { s with homeScore := homeScore }

/-- One inning of the specification-level walk, away half then home half. -/
def specLeadStep (s : SpecLeadState) (inning : ℕ × ℕ) : SpecLeadState :=
  specLeadHomeHalf (specLeadAwayHalf s inning.1) inning.2

/-- Modelled from the spec's words: the lead-change count over an ordered
sequence of (awayRuns, homeRuns) innings. -/
def specLeadChanges (innings : List (ℕ × ℕ)) : ℕ :=
  (innings.foldl specLeadStep { count := 0, awayScore := 0, homeScore := 0, leader := none }).count

/-- The leader tag distinguished by `Parser.findLastLeadChangeInning`
(the strings `'away'`, `'home'`, `'tie'`). -/
inductive LeaderTag where
  | away
  | home
  | tie
deriving DecidableEq, Repr

/-- State of `Parser.findLastLeadChangeInning`'s walk. -/
structure LLCState where
  last : ℕ
  awayScore : ℕ
  homeScore : ℕ
  previousLeader : Option LeaderTag
deriving DecidableEq, Repr

/-- One iteration of `Parser.findLastLeadChangeInning`: both half-innings are
added (`inning.away?.runs || 0`), then the leader is evaluated once. -/
def findLastLeadChangeStep (s : LLCState) (inning : Inning) : LLCState :=
  let awayScore := s.awayScore + inning.away.getD 0
  let homeScore := s.homeScore + inning.home.getD 0
  let currentLeader : LeaderTag :=
    if awayScore > homeScore then LeaderTag.away
    else if homeScore > awayScore then LeaderTag.home
    else LeaderTag.tie
  let last :=
    if some currentLeader ≠ s.previousLeader ∧ currentLeader ≠ LeaderTag.tie then
      inning.num
    else s.last
  { last := last, awayScore := awayScore, homeScore := homeScore,
    previousLeader := some currentLeader }

/-- `Parser.findLastLeadChangeInning(gameData)` over the linescore innings
(a missing linescore is the empty list, returning 0). -/
def findLastLeadChangeInning (innings : List Inning) : ℕ :=
  (innings.foldl findLastLeadChangeStep
    { last := 0, awayScore := 0, homeScore := 0, previousLeader := none }).last

/-- `Parser.isWalkoffGame(gameData)`: `awayScore`/`homeScore` are the final
scores `gameData.teams.away.score` / `gameData.teams.home.score`. -/
def isWalkoffGame (innings : List Inning) (awayScore homeScore : ℤ) : Bool :=
  match innings.getLast? with
  | none => false
  | some lastInning =>
    if homeScore ≤ awayScore then false
    else if lastInning.num < 9 then false
    else decide (homeScore - (lastInning.home.getD 0 : ℕ) ≤ awayScore)

/-- State of the walk inside `Parser.findMaximumLeadAndComeback`. -/
structure MaxLeadState where
  awayScore : ℕ
  homeScore : ℕ
  maxLead : ℕ
  maxLeadTeamId : Option ℕ
deriving DecidableEq, Repr

/-- One iteration of the maximum-lead walk: add the away runs, check for an
away lead, add the home runs, check for a home lead. -/
def maxLeadStep (awayTeamId homeTeamId : ℕ) (s : MaxLeadState) (inning : Inning) :
    MaxLeadState :=
  let awayScore :=
    match inning.away with
    | none => s.awayScore
    | some r => s.awayScore + r
  let s1 :=
    if awayScore > s.homeScore then
      let currentLead := awayScore - s.homeScore
      if currentLead > s.maxLead then
        { awayScore := awayScore, homeScore := s.homeScore,
          maxLead := currentLead, maxLeadTeamId := some awayTeamId }
      else { s with awayScore := awayScore }
    else { s with awayScore := awayScore }
  let homeScore :=
    match inning.home with
    | none => s1.homeScore
    | some r => s1.homeScore + r
  if homeScore > s1.awayScore then
    let currentLead := homeScore - s1.awayScore
    if currentLead > s1.maxLead then
      { awayScore := s1.awayScore, homeScore := homeScore,
        maxLead := currentLead, maxLeadTeamId := some homeTeamId }
    else { s1 with homeScore := homeScore }
  else { s1 with homeScore := homeScore }

/-- The walk inside `Parser.findMaximumLeadAndComeback`, returning the final
`maxLead` / `maxLeadTeamId` trackers. -/
def maxLeadWalk (innings : List Inning) (awayTeamId homeTeamId : ℕ) : MaxLeadState :=
  innings.foldl (maxLeadStep awayTeamId homeTeamId)
    { awayScore := 0, homeScore := 0, maxLead := 0, maxLeadTeamId := none }

/-- `Parser.findMaximumLeadAndComeback`: the returned
`{maxLead, comebackTeamId}` pair. -/
def findMaximumLeadAndComeback (innings : List Inning) (awayTeamId homeTeamId : ℕ)
    (finalAwayScore finalHomeScore : ℤ) : ℕ × Option ℕ :=
  match innings with
  | [] => (0, none)
  | _ =>
    let w := maxLeadWalk innings awayTeamId homeTeamId
    let awayWon := finalAwayScore > finalHomeScore
    let homeWon := finalHomeScore > finalAwayScore
    let comebackTeamId : Option ℕ :=
      if w.maxLead ≥ 3 then
        if awayWon ∧ w.maxLeadTeamId = some homeTeamId then some awayTeamId
        else if homeWon ∧ w.maxLeadTeamId = some awayTeamId then some homeTeamId
        else none
      else none
    (w.maxLead, comebackTeamId)

/-- An upstream person object: the nested shape `player.person` may expose,
with each field possibly absent. -/
structure PersonRec where
  id : ℕ
  fullName : Option String
  firstName : Option String
  lastName : Option String
  name : Option String
deriving DecidableEq, Repr

/-- An upstream player object as probed by `Utils.getPlayerName`: optionally a
nested `person`, plus the flat name fields. -/
structure PlayerRec where
  person : Option PersonRec
  fullName : Option String
  firstName : Option String
  lastName : Option String
  name : Option String
deriving DecidableEq, Repr

/-- View a bare person object as a `getPlayerName` argument (it has no nested
`person` of its own). -/
def personAsPlayer (p : PersonRec) : PlayerRec :=
  { person := none, fullName := p.fullName, firstName := p.firstName,
    lastName := p.lastName, name := p.name }

/-- `Utils.getPlayerName(player)`: the precedence-ordered probe over the
possible upstream name shapes. -/
def getPlayerName (player : PlayerRec) : String :=
  if strTruthy (player.person.bind PersonRec.fullName) then
    ((player.person.bind PersonRec.fullName).getD "")
  else if strTruthy (player.person.bind PersonRec.firstName) ∧
      strTruthy (player.person.bind PersonRec.lastName) then
    ((player.person.bind PersonRec.firstName).getD "") ++ " " ++
      ((player.person.bind PersonRec.lastName).getD "")
  else if strTruthy player.fullName then player.fullName.getD ""
  else if strTruthy player.firstName ∧ strTruthy player.lastName then
    player.firstName.getD "" ++ " " ++ player.lastName.getD ""
  else if strTruthy player.name then player.name.getD ""
  else "Unknown Player"

/-- A processed pitcher reference (the `stats` slot is loaded later and is
always `null` at extraction time). -/
structure Pitcher where
  id : ℕ
  name : String
deriving DecidableEq, Repr

/-- `Parser.extractPitcher(pitcher)`: name resolution via `Utils.getPlayerName`. -/
def extractPitcher (pitcher : Option PersonRec) : Option Pitcher :=
  match pitcher with
  | none => none
  | some p => some { id := p.id, name := getPlayerName (personAsPlayer p) }

/-- `Parser.extractFuturePitcher(pitcher)`:
`pitcher.fullName || [interpolated firstName/lastName] || 'TBD'`.  The string
interpolation renders an absent field as the text `"undefined"`, so the
interpolated string is never empty. -/
def extractFuturePitcher (pitcher : Option PersonRec) : Option Pitcher :=
  match pitcher with
  | none => none
  | some p =>
    let interpolated := jsInterp p.firstName ++ " " ++ jsInterp p.lastName
    some { id := p.id,
           name := jsOrStr p.fullName (if interpolated = "" then "TBD" else interpolated) }

/-- One raw side of a raw schedule game record (`game.teams.away` /
`game.teams.home`): team identity, final score, probable pitcher, record. -/
structure RawTeamSide where
  teamId : ℕ
  teamName : String
  score : ℤ
  probablePitcher : Option PersonRec
  recordWins : Option ℕ
  recordLosses : Option ℕ
deriving DecidableEq, Repr

/-- A raw schedule game record, restricted to the fields `processGameData`
reads.  `gameDate` is the game timestamp in milliseconds since the epoch (the
source keeps it as an ISO string and derives the calendar day from it). -/
structure RawGame where
  gamePk : ℕ
  gameDate : ℕ
  detailedState : String
  away : RawTeamSide
  home : RawTeamSide
  innings : List Inning
  awayHits : Option ℕ
  awayErrors : Option ℕ
  homeHits : Option ℕ
  homeErrors : Option ℕ
  venue : Option String
  inning : Option ℕ
deriving DecidableEq, Repr

/-- A normalized team side of a processed game. -/
structure PTeam where
  id : ℕ
  name : String
  score : ℤ
  hits : ℕ
  errors : ℕ
  pitcher : Option Pitcher
  logoUrl : String
  recordWins : ℕ
  recordLosses : ℕ
deriving DecidableEq, Repr

/-- One entry of the normalized `inningScores` list. -/
structure InningScore where
  inningNumber : ℕ
  away : ℕ
  home : ℕ
deriving DecidableEq, Repr

/-- A normalized game record, as returned by `Parser.processGameData`. -/
structure PGame where
  id : ℕ
  date : ℕ
  status : String
  awayTeam : PTeam
  homeTeam : PTeam
  venue : String
  innings : ℕ
  inningScores : List InningScore
  isExtraInnings : Bool
  leadChanges : ℕ
  totalRuns : ℤ
  runDifference : ℕ
  isCloseGame : Bool
  isHighScoring : Bool
  lastLeadChangeInning : ℕ
  isWalkoff : Bool
  inning : ℕ
  maxLead : ℕ
  hasComebackWin : Bool
  comebackTeamId : Option ℕ
deriving DecidableEq, Repr

/-- `API.getTeamLogoUrl(teamId)`. -/
def getTeamLogoUrl (teamId : ℕ) : String :=
  "https://www.mlbstatic.com/team-logos/" ++ toString teamId ++ ".svg"

/-- `Parser.processGameData(game)`: normalization of one raw final game. -/
def processGameData (game : RawGame) : PGame :=
  let awayTeam := game.away
  let homeTeam := game.home
  let innings := game.innings
  let leadChanges := countLeadChanges innings awayTeam.teamId homeTeam.teamId
  let isExtraInnings := innings.length > 9
  let totalRuns := awayTeam.score + homeTeam.score
  let runDifference := (awayTeam.score - homeTeam.score).natAbs
  let inningScores := innings.map fun inning =>
    { inningNumber := inning.num, away := inning.away.getD 0, home := inning.home.getD 0 }
  let lastLeadChangeInning := findLastLeadChangeInning innings
  let isWalkoff := isWalkoffGame innings awayTeam.score homeTeam.score
  let mlc := findMaximumLeadAndComeback innings awayTeam.teamId homeTeam.teamId
    awayTeam.score homeTeam.score
  let maxLead := mlc.1
  let comebackTeamId := mlc.2
  let hasComebackWin := comebackTeamId ≠ none
  { id := game.gamePk,
    date := game.gameDate,
    status := game.detailedState,
    awayTeam :=
      { id := awayTeam.teamId, name := awayTeam.teamName, score := awayTeam.score,
        hits := game.awayHits.getD 0, errors := game.awayErrors.getD 0,
        pitcher := extractPitcher awayTeam.probablePitcher,
        logoUrl := getTeamLogoUrl awayTeam.teamId,
        recordWins := awayTeam.recordWins.getD 0,
        recordLosses := awayTeam.recordLosses.getD 0 },
    homeTeam :=
      { id := homeTeam.teamId, name := homeTeam.teamName, score := homeTeam.score,
        hits := game.homeHits.getD 0, errors := game.homeErrors.getD 0,
        pitcher := extractPitcher homeTeam.probablePitcher,
        logoUrl := getTeamLogoUrl homeTeam.teamId,
        recordWins := homeTeam.recordWins.getD 0,
        recordLosses := homeTeam.recordLosses.getD 0 },
    venue := game.venue.getD "Unknown Venue",
    innings := innings.length,
    inningScores := inningScores,
    isExtraInnings := isExtraInnings,
    leadChanges := leadChanges,
    totalRuns := totalRuns,
    runDifference := runDifference,
    isCloseGame := runDifference ≤ 2,
    isHighScoring := totalRuns ≥ 10,
    lastLeadChangeInning := lastLeadChangeInning,
    isWalkoff := isWalkoff,
    inning := jsOrNat game.inning 9,
    maxLead := maxLead,
    hasComebackWin := hasComebackWin,
    comebackTeamId := comebackTeamId }

/-- The grouping key of `Parser.deduplicateGames`:
`` `${gameDate}-${Math.min(awayId, homeId)}-${Math.max(awayId, homeId)}` ``
where `gameDate` is the UTC calendar day of the game timestamp
(`new Date(game.date).toISOString().split('T')[0]`, i.e. the millisecond
timestamp divided by 86400000). -/
def gameKey (g : PGame) : ℕ × ℕ × ℕ :=
  (g.date / 86400000, min g.awayTeam.id g.homeTeam.id, max g.awayTeam.id g.homeTeam.id)

/-- JS object indexing `gamesByDateAndTeams[key]` over the insertion-ordered
association list. -/
def alistFind (k : ℕ × ℕ × ℕ) : List ((ℕ × ℕ × ℕ) × PGame) → Option PGame
  | [] => none
  | (k', g) :: rest => if k' = k then some g else alistFind k rest

/-- One iteration of `Parser.deduplicateGames`: insert the game under its key
(a fresh key appends; a higher `totalRuns` overwrites in place). -/
def dedupStep (acc : List ((ℕ × ℕ × ℕ) × PGame)) (game : PGame) :
    List ((ℕ × ℕ × ℕ) × PGame) :=
  let key := gameKey game
  match alistFind key acc with
  | none => acc ++ [(key, game)]
  | some existing =>
    if game.totalRuns > existing.totalRuns then
      acc.map fun p => if p.1 = key then (key, game) else p
    else acc

/-- `Parser.deduplicateGames(games)`: group by (calendar day, unordered
team-id pair), keep the record with the most total runs, return the values in
key-insertion order. -/
def deduplicateGames (games : List PGame) : List PGame :=
  (games.foldl dedupStep []).map Prod.snd

/-- A player's single-game batting line, as read by milestone extraction. -/
structure BattingLine where
  homeRuns : ℕ
  rbi : ℕ
  singles : ℕ
  doubles : ℕ
  triples : ℕ
deriving DecidableEq, Repr

/-- A player's single-game pitching line, as read by milestone extraction. -/
structure PitchingLine where
  strikeOuts : ℕ
deriving DecidableEq, Repr

/-- One entry of `boxscore.teams[side].players`: the person plus the optional
game batting/pitching stat lines. -/
structure BoxPlayer where
  person : PersonRec
  batting : Option BattingLine
  pitching : Option PitchingLine
deriving DecidableEq, Repr

/-- Team aggregate batting line (`teamStats.batting`). -/
structure TeamBatting where
  hits : ℕ
  baseOnBalls : ℕ
  hitByPitch : ℕ
deriving DecidableEq, Repr

/-- Team aggregate fielding line (`teamStats.fielding`). -/
structure TeamFielding where
  errors : ℕ
deriving DecidableEq, Repr

/-- `boxscore.teams[side].teamStats`, each sub-line possibly absent. -/
structure TeamStats where
  batting : Option TeamBatting
  fielding : Option TeamFielding
deriving DecidableEq, Repr

/-- One side of a detailed box score. -/
structure BoxTeam where
  teamStats : Option TeamStats
  players : List BoxPlayer
deriving DecidableEq, Repr

/-- The `teams` object of a detailed box score. -/
structure BoxTeams where
  away : BoxTeam
  home : BoxTeam
deriving DecidableEq, Repr

/-- A milestone list entry carrying a player's home-run count. -/
structure HREntry where
  id : ℕ
  name : String
  homeRuns : ℕ
deriving DecidableEq, Repr

/-- A milestone list entry carrying a player's RBI count. -/
structure RbiEntry where
  id : ℕ
  name : String
  rbi : ℕ
deriving DecidableEq, Repr

/-- A milestone entry carrying a pitcher's strikeout count. -/
structure KEntry where
  id : ℕ
  name : String
  strikeOuts : ℕ
deriving DecidableEq, Repr

/-- A milestone entry for a cycle hitter. -/
structure CycleEntry where
  id : ℕ
  name : String
deriving DecidableEq, Repr

/-- The per-side milestone record produced by `API.processPlayerMilestones`. -/
structure SideMilestones where
  hasMilestones : Bool
  noHitter : Bool
  perfectGame : Bool
  cycleHitter : Option CycleEntry
  multiHomeRunHitters : List HREntry
  highRbiHitters : List RbiEntry
  highStrikeoutPitcher : Option KEntry
deriving DecidableEq, Repr

/-- The initial (all-empty) per-side milestone record. -/
def emptySideMilestones : SideMilestones :=
  { hasMilestones := false, noHitter := false, perfectGame := false,
    cycleHitter := none, multiHomeRunHitters := [], highRbiHitters := [],
    highStrikeoutPitcher := none }

/-- The body of the per-player loop of `API.processPlayerMilestones`:
multi-HR, high-RBI and cycle batting checks, then the high-strikeout pitching
check, each mutating the side's milestone record. -/
def milestonePlayerStep (ms : SideMilestones) (player : BoxPlayer) : SideMilestones :=
  if player.batting = none ∧ player.pitching = none then ms
  else
    let ms :=
      match player.batting with
      | none => ms
      | some battingStats =>
        let ms :=
          if battingStats.homeRuns ≥ 2 then
            { ms with
              multiHomeRunHitters := ms.multiHomeRunHitters ++
                [{ id := player.person.id,
                   name := getPlayerName (personAsPlayer player.person),
                   homeRuns := battingStats.homeRuns }],
              hasMilestones := true }
          else ms
        let ms :=
          if battingStats.rbi ≥ 5 then
            { ms with
              highRbiHitters := ms.highRbiHitters ++
                [{ id := player.person.id,
                   name := getPlayerName (personAsPlayer player.person),
                   rbi := battingStats.rbi }],
              hasMilestones := true }
          else ms
        if battingStats.singles > 0 ∧ battingStats.doubles > 0 ∧
            battingStats.triples > 0 ∧ battingStats.homeRuns > 0 then
          { ms with
            cycleHitter := some { id := player.person.id,
                                  name := getPlayerName (personAsPlayer player.person) },
            hasMilestones := true }
        else ms
    match player.pitching with
    | none => ms
    | some pitchingStats =>
      if pitchingStats.strikeOuts ≥ 10 then
        { ms with
          highStrikeoutPitcher := some
            { id := player.person.id,
              name := getPlayerName (personAsPlayer player.person),
              strikeOuts := pitchingStats.strikeOuts },
          hasMilestones := true }
      else ms

/-- The per-side part of `API.processPlayerMilestones`: the team no-hitter /
perfect-game checks against the opposing side, then the player loop. -/
def processSideMilestones (team opposingTeam : BoxTeam) : SideMilestones :=
  let ms := emptySideMilestones
  let ms :=
    if (opposingTeam.teamStats.bind TeamStats.batting).map TeamBatting.hits = some 0 then
      let ms := { ms with noHitter := true, hasMilestones := true }
      match opposingTeam.teamStats.bind TeamStats.batting,
          team.teamStats.bind TeamStats.fielding with
      | some battingStats, some fieldingStats =>
        if battingStats.baseOnBalls = 0 ∧ battingStats.hitByPitch = 0 ∧
            fieldingStats.errors = 0 then
          { ms with perfectGame := true }
        else ms
      | _, _ => ms
    else ms
  team.players.foldl milestonePlayerStep ms

/-- The `{away, home}` milestone pair attached to an enriched game. -/
structure MilestonesPair where
  away : SideMilestones
  home : SideMilestones
deriving DecidableEq, Repr

/-- `API.processPlayerMilestones(boxscoreData)`; a payload without a `teams`
object yields the empty milestone records. -/
def processPlayerMilestones (boxscoreData : Option BoxTeams) : MilestonesPair :=
  match boxscoreData with
  | none => { away := emptySideMilestones, home := emptySideMilestones }
  | some teams =>
    { away := processSideMilestones teams.away teams.home,
      home := processSideMilestones teams.home teams.away }

/-- One rivalry entry of the reference table: an unordered team-name group. -/
structure Rivalry where
  teams : List String
deriving DecidableEq, Repr

/-- The module-level mutable rivalry state of the `Ranker` class
(`Ranker.iconicRivalries` / `Ranker.recentRivalries`): `none` models the
not-yet-loaded `undefined`; the asynchronous `loadRivalryData` fills both
lists after its fetch resolves. -/
structure RivalryState where
  iconicRivalries : Option (List Rivalry)
  recentRivalries : Option (List Rivalry)
deriving DecidableEq, Repr

/-- A basic standings snapshot (`team.ranking` from
`API.processTeamRankings`).  `divisionRank` is `parseInt(...) || 0`;
`gamesBack` is the raw standings value, `none` when it is not a number (the
league leader's `"-"`), in which case the JS comparison `gamesBack <= 5` is
false. -/
structure Ranking where
  divisionRank : ℕ
  divisionName : Option String
  gamesBack : Option ℚ
deriving DecidableEq, Repr

/-- A detailed standings snapshot (`team.detailedRanking` from
`API.processDetailedStandings`), restricted to the fields the scorer reads.
`gamesBack` is the value `parseFloat` is applied to. -/
structure DetailedRanking where
  divisionName : String
  gamesBack : ℚ
  wildCardGamesBack : ℚ
  eliminationNumber : ℚ
  isInFirstPlace : Bool
  isInWildCard : Bool
deriving DecidableEq, Repr

/-- A team side as the `Ranker` reads it.  `runs` is `Option` because the
normalizer stores the final score under `score`, not `runs`; when absent the
JS subtraction in `calculateHighScoringScore` is `NaN` and its comparison
false. -/
structure RTeam where
  name : String
  runs : Option ℤ
  hits : ℕ
  errors : ℕ
  ranking : Option Ranking
  detailedRanking : Option DetailedRanking
deriving DecidableEq, Repr

/-- A game as the `Ranker` reads it.  `month` is the 0-based month index that
`new Date(game.date).getMonth()` extracts from the game timestamp. -/
structure RGame where
  awayTeam : RTeam
  homeTeam : RTeam
  runDifference : ℕ
  leadChanges : ℕ
  lastLeadChangeInning : ℕ
  inning : ℕ
  isWalkoff : Bool
  innings : ℕ
  isExtraInnings : Bool
  totalRuns : ℤ
  maxLead : ℕ
  hasComebackWin : Bool
  inningScores : List InningScore
  month : ℕ
  playerMilestones : Option MilestonesPair
  excitementScore : ℤ
deriving DecidableEq, Repr

/-- The caller-supplied options object: a JS object probed by factor name,
an absent key being `undefined` (falsy). -/
abbrev RankOptions := List (String × Bool)

/-- Reading `options.someFactor`. -/
def getOpt (options : RankOptions) (key : String) : Bool :=
  (options.lookup key).getD false

/-- The `Ranker.weights` table. -/
structure Weights where
  closeGame : ℚ
  leadChanges : ℚ
  lateGameDrama : ℚ
  comebackWin : ℚ
  extraInnings : ℚ
  highScoring : ℚ
  teamRankings : ℚ
  hits : ℚ
  errors : ℚ
  scoringDistribution : ℚ
  rivalryGame : ℚ
  playerMilestones : ℚ
  seasonalContext : ℚ
deriving DecidableEq, Repr

/-- The fixed factor weights. -/
def weights : Weights :=
  { closeGame := 20, leadChanges := 15, lateGameDrama := 20, comebackWin := 10,
    extraInnings := 10, highScoring := 10, teamRankings := 5, hits := 5,
    errors := 5, scoringDistribution := 10, rivalryGame := 10,
    playerMilestones := 5, seasonalContext := 5 }

/-- `Ranker.calculateCloseGameScore(game)`. -/
def calculateCloseGameScore (game : RGame) : ℚ :=
  if game.runDifference = 0 then 1
  else if game.runDifference = 1 then 0.85
  else if game.runDifference = 2 then 0.65
  else if game.runDifference = 3 then 0.4
  else max 0 (0.2 - ((game.runDifference : ℚ) - 4) * 0.1)

/-- `Ranker.calculateLeadChangesScore(game)`. -/
def calculateLeadChangesScore (game : RGame) : ℚ :=
  let score : ℚ :=
    if game.leadChanges ≥ 5 then 1
    else if game.leadChanges = 4 then 0.8
    else if game.leadChanges = 3 then 0.6
    else if game.leadChanges = 2 then 0.4
    else if game.leadChanges = 1 then 0.2
    else 0
  let score := if game.lastLeadChangeInning ≥ 7 then score * 1.2 else score
  min 1 score

/-- `Ranker.calculateLateGameDramaScore(game)`. -/
def calculateLateGameDramaScore (game : RGame) : ℚ :=
  let score : ℚ := 0
  let score :=
    if game.runDifference ≤ 1 ∧ game.inning ≥ 8 then score + 0.7
    else if game.runDifference ≤ 2 ∧ game.inning ≥ 7 then score + 0.4
    else score
  let score :=
    if game.lastLeadChangeInning ≥ 8 then score + 0.5
    else if game.lastLeadChangeInning ≥ 7 then score + 0.3
    else score
  let score := if game.isWalkoff then score + 0.5 else score
  min 1 score

/-- `Ranker.calculateExtraInningsScore(game)`. -/
def calculateExtraInningsScore (game : RGame) : ℚ :=
  let extraInnings : ℤ := (game.innings : ℤ) - 9
  if extraInnings ≥ 5 then 1
  else if extraInnings = 4 then 0.8
  else if extraInnings = 3 then 0.6
  else if extraInnings = 2 then 0.4
  else if extraInnings = 1 then 0.2
  else 0

/-- `Ranker.calculateHighScoringScore(game)`.  The bonus test reads
`game.homeTeam.runs - game.awayTeam.runs`; when either field is absent that
difference is `NaN` and the `<= 2` comparison is false. -/
def calculateHighScoringScore (game : RGame) : ℚ :=
  let score : ℚ :=
    if game.totalRuns ≥ 15 then 1
    else if game.totalRuns ≥ 12 then 0.7
    else if game.totalRuns ≥ 10 then 0.5
    else if game.totalRuns ≥ 8 then 0.3
    else if game.totalRuns ≥ 6 then 0.1
    else 0
  let runDiffSmall : Bool :=
    match game.homeTeam.runs, game.awayTeam.runs with
    | some hr, some ar => (hr - ar).natAbs ≤ 2
    | _, _ => false
  let score := if game.totalRuns ≥ 10 ∧ runDiffSmall then score * 1.2 else score
  min 1 score

/-- `Ranker.calculateRankingsScore(game)`: ranks default to 5 via
`ranking?.divisionRank || 5`. -/
def calculateRankingsScore (game : RGame) : ℚ :=
  let awayRank := jsOrNat (game.awayTeam.ranking.map Ranking.divisionRank) 5
  let homeRank := jsOrNat (game.homeTeam.ranking.map Ranking.divisionRank) 5
  let avgRank : ℚ := ((awayRank : ℚ) + (homeRank : ℚ)) / 2
  let score := max 0 ((5 - avgRank) / 4)
  let score :=
    if awayRank ≤ 2 ∧ homeRank ≤ 2 then score + 0.2
    else if awayRank ≤ 3 ∧ homeRank ≤ 3 then score + 0.1
    else score
  min 1 score

/-- `Ranker.calculateHitsScore(game)`. -/
def calculateHitsScore (game : RGame) : ℚ :=
  let totalHits := game.awayTeam.hits + game.homeTeam.hits
  if totalHits ≥ 25 then 1
  else if totalHits ≥ 20 then 0.8
  else if totalHits ≥ 15 then 0.6
  else if totalHits ≥ 10 then 0.4
  else if totalHits ≥ 5 then 0.2
  else 0

/-- `Ranker.calculateErrorsScore(game)`. -/
def calculateErrorsScore (game : RGame) : ℚ :=
  let totalErrors := game.awayTeam.errors + game.homeTeam.errors
  if totalErrors ≥ 4 then 1
  else if totalErrors = 3 then 0.75
  else if totalErrors = 2 then 0.5
  else if totalErrors = 1 then 0.25
  else 0

/-- `Ranker.calculateComebackScore(game)`. -/
def calculateComebackScore (game : RGame) : ℚ :=
  if ¬game.hasComebackWin then 0
  else if game.maxLead ≥ 6 then 1
  else if game.maxLead ≥ 5 then 0.85
  else if game.maxLead ≥ 4 then 0.7
  else if game.maxLead ≥ 3 then 0.5
  else 0

/-- `Ranker.calculateScoringDistributionScore(game)`: the banded fraction of
innings with any scoring.  (For a normalized game `innings` is the length of
`inningScores`; with zero innings the JS fraction is `NaN`, every band test
is false and the result is the final 0.1, matching `ℚ`'s `x / 0 = 0`.) -/
def calculateScoringDistributionScore (game : RGame) : ℚ :=
  let inningsWithScoring :=
    (game.inningScores.filter fun inning => inning.away > 0 ∨ inning.home > 0).length
  let totalInnings := game.innings
  let distFrac : ℚ := (inningsWithScoring : ℚ) / (totalInnings : ℚ)
  if distFrac ≥ 0.9 then 1
  else if distFrac ≥ 0.8 then 0.9
  else if distFrac ≥ 0.7 then 0.8
  else if distFrac ≥ 0.6 then 0.65
  else if distFrac ≥ 0.5 then 0.5
  else if distFrac ≥ 0.4 then 0.3
  else if distFrac ≥ 0.3 then 0.2
  else 0.1

/-- Whether a (possibly not yet loaded) rivalry list contains a group with
both team names. -/
def rivalryHit (rivalries : Option (List Rivalry)) (awayTeam homeTeam : String) : Bool :=
  match rivalries with
  | none => false
  | some rs => rs.any fun rivalry =>
      rivalry.teams.contains awayTeam && rivalry.teams.contains homeTeam

/-- `Ranker.calculateRivalryScore(game)` as a function of the current
module-level rivalry state.  (When the state is not yet loaded the method
kicks off the asynchronous `loadRivalryData`, which cannot fail or complete
synchronously, and both list probes see `undefined`, returning 0.) -/
def calculateRivalryScore (st : RivalryState) (game : RGame) : ℚ :=
  let awayTeam := game.awayTeam.name
  let homeTeam := game.homeTeam.name
  if rivalryHit st.iconicRivalries awayTeam homeTeam then 1
  else if rivalryHit st.recentRivalries awayTeam homeTeam then 0.7
  else 0

/-- The multi-home-run block of `Ranker.calculatePlayerMilestonesScore`. -/
def milestonesMultiHRScore (a h : SideMilestones) (score : ℚ) : ℚ :=
  if a.multiHomeRunHitters.length > 0 ∨ h.multiHomeRunHitters.length > 0 then
    let totalMultiHRPlayers := a.multiHomeRunHitters.length + h.multiHomeRunHitters.length
    let maxHRs := (a.multiHomeRunHitters ++ h.multiHomeRunHitters).foldl
      (fun m player => if player.homeRuns > m then player.homeRuns else m) (2 : ℕ)
    if maxHRs ≥ 4 then max score 0.9
    else if maxHRs = 3 then max score 0.8
    else if totalMultiHRPlayers > 1 then max score 0.7
    else max score 0.6
  else score

/-- The high-RBI block of `Ranker.calculatePlayerMilestonesScore`. -/
def milestonesHighRbiScore (a h : SideMilestones) (score : ℚ) : ℚ :=
  if a.highRbiHitters.length > 0 ∨ h.highRbiHitters.length > 0 then
    let maxRBIs := (a.highRbiHitters ++ h.highRbiHitters).foldl
      (fun m player => if player.rbi > m then player.rbi else m) (5 : ℕ)
    if maxRBIs ≥ 8 then max score 0.85
    else if maxRBIs ≥ 7 then max score 0.75
    else if maxRBIs ≥ 6 then max score 0.65
    else max score 0.55
  else score

/-- The high-strikeout block of `Ranker.calculatePlayerMilestonesScore`. -/
def milestonesHighKScore (a h : SideMilestones) (score : ℚ) : ℚ :=
  if a.highStrikeoutPitcher.isSome ∨ h.highStrikeoutPitcher.isSome then
    let awayKs := ((a.highStrikeoutPitcher.map KEntry.strikeOuts).getD 0)
    let homeKs := ((h.highStrikeoutPitcher.map KEntry.strikeOuts).getD 0)
    let maxKs := max awayKs homeKs
    if maxKs ≥ 15 then max score 0.9
    else if maxKs ≥ 13 then max score 0.8
    else if maxKs ≥ 11 then max score 0.7
    else max score 0.6
  else score

/-- `Ranker.calculatePlayerMilestonesScore(game)`. -/
def calculatePlayerMilestonesScore (game : RGame) : ℚ :=
  match game.playerMilestones with
  | some pm =>
    let a := pm.away
    let h := pm.home
    if a.perfectGame ∨ h.perfectGame then 1
    else if a.noHitter ∨ h.noHitter then 0.95
    else
      let score : ℚ := 0
      let score :=
        if a.cycleHitter.isSome ∨ h.cycleHitter.isSome then max score 0.9 else score
      let score := milestonesMultiHRScore a h score
      let score := milestonesHighRbiScore a h score
      milestonesHighKScore a h score
  | none =>
    if game.awayTeam.hits = 0 ∨ game.homeTeam.hits = 0 then 1 else 0

/-- The `undefined`-tolerant division-name equality of the basic seasonal
fallback (`ranking?.divisionName === ranking?.divisionName`: two absent
values compare equal). -/
def basicSameDivision (a b : Option Ranking) : Bool :=
  (a.bind Ranking.divisionName) = (b.bind Ranking.divisionName)

/-- The basic in-contention test `ranking?.gamesBack <= 5` (false when the
ranking or a numeric games-back value is absent). -/
def basicInContention (r : Option Ranking) : Bool :=
  match r.bind Ranking.gamesBack with
  | none => false
  | some gb => gb ≤ 5

/-- `Ranker.calculateSeasonalContextScore(game)`. -/
def calculateSeasonalContextScore (game : RGame) : ℚ :=
  let isLateSeason := game.month ≥ 8
  match game.awayTeam.detailedRanking, game.homeTeam.detailedRanking with
  | some adr, some hdr =>
    let score : ℚ := 0
    let score :=
      if adr.isInFirstPlace ∧ hdr.isInFirstPlace then
        let s := score + 0.7
        if isLateSeason then s + 0.2 else s
      else score
    let isWildCardBattle :=
      (adr.isInWildCard ∨ adr.wildCardGamesBack ≤ 5) ∧
      (hdr.isInWildCard ∨ hdr.wildCardGamesBack ≤ 5)
    let score :=
      if isWildCardBattle then
        let s := score + 0.5
        if isLateSeason then s + 0.2 else s
      else score
    let score :=
      if adr.divisionName = hdr.divisionName then
        let divisionGamesBack := min adr.gamesBack hdr.gamesBack
        if divisionGamesBack ≤ 2 then
          let s := score + 0.6
          if isLateSeason then s + 0.2 else s
        else if divisionGamesBack ≤ 5 then
          let s := score + 0.4
          if isLateSeason then s + 0.2 else s
        else score
      else score
    let score :=
      if isLateSeason ∧ (adr.eliminationNumber ≤ 1 ∨ hdr.eliminationNumber ≤ 1) then
        score + 0.8
      else score
    min 1 score
  | _, _ =>
    let awayInContention := basicInContention game.awayTeam.ranking
    let homeInContention := basicInContention game.homeTeam.ranking
    let score : ℚ := 0
    let score :=
      if basicSameDivision game.awayTeam.ranking game.homeTeam.ranking then
        if awayInContention ∧ homeInContention then
          let s := score + 0.7
          if isLateSeason then s + 0.3 else s
        else score
      else score
    let score :=
      if awayInContention ∧ homeInContention then
        let s := score + 0.5
        if isLateSeason then s + 0.2 else s
      else score
    min 1 score

/-- `Ranker.calculateGameScore(game, options)`: the weighted accumulation over
the enabled factors, renormalized by the enabled weight sum and rounded; 0
when no factor contributed to the denominator. -/
def calculateGameScore (st : RivalryState) (game : RGame) (options : RankOptions) : ℤ :=
  let score : ℚ := 0
  let maxPossibleScore : ℚ := 0
  let score := if getOpt options "closeGames" then
    score + calculateCloseGameScore game * weights.closeGame else score
  let maxPossibleScore := if getOpt options "closeGames" then
    maxPossibleScore + weights.closeGame else maxPossibleScore
  let score := if getOpt options "leadChanges" then
    score + calculateLeadChangesScore game * weights.leadChanges else score
  let maxPossibleScore := if getOpt options "leadChanges" then
    maxPossibleScore + weights.leadChanges else maxPossibleScore
  let score := if getOpt options "lateGameDrama" then
    score + calculateLateGameDramaScore game * weights.lateGameDrama else score
  let maxPossibleScore := if getOpt options "lateGameDrama" then
    maxPossibleScore + weights.lateGameDrama else maxPossibleScore
  let score := if getOpt options "comebackWins" then
    score + calculateComebackScore game * weights.comebackWin else score
  let maxPossibleScore := if getOpt options "comebackWins" then
    maxPossibleScore + weights.comebackWin else maxPossibleScore
  let score := if getOpt options "extraInnings" && game.isExtraInnings then
    score + calculateExtraInningsScore game * weights.extraInnings else score
  let maxPossibleScore := if getOpt options "extraInnings" && game.isExtraInnings then
    maxPossibleScore + weights.extraInnings else maxPossibleScore
  let score := if getOpt options "highScoring" then
    score + calculateHighScoringScore game * weights.highScoring else score
  let maxPossibleScore := if getOpt options "highScoring" then
    maxPossibleScore + weights.highScoring else maxPossibleScore
  let score := if getOpt options "teamRankings" then
    score + calculateRankingsScore game * weights.teamRankings else score
  let maxPossibleScore := if getOpt options "teamRankings" then
    maxPossibleScore + weights.teamRankings else maxPossibleScore
  let score := if getOpt options "hits" then
    score + calculateHitsScore game * weights.hits else score
  let maxPossibleScore := if getOpt options "hits" then
    maxPossibleScore + weights.hits else maxPossibleScore
  let score := if getOpt options "errors" then
    score + calculateErrorsScore game * weights.errors else score
  let maxPossibleScore := if getOpt options "errors" then
    maxPossibleScore + weights.errors else maxPossibleScore
  let score := if getOpt options "scoringDistribution" then
    score + calculateScoringDistributionScore game * weights.scoringDistribution else score
  let maxPossibleScore := if getOpt options "scoringDistribution" then
    maxPossibleScore + weights.scoringDistribution else maxPossibleScore
  let score := if getOpt options "rivalryGame" then
    score + calculateRivalryScore st game * weights.rivalryGame else score
  let maxPossibleScore := if getOpt options "rivalryGame" then
    maxPossibleScore + weights.rivalryGame else maxPossibleScore
  let score := if getOpt options "playerMilestones" then
    score + calculatePlayerMilestonesScore game * weights.playerMilestones else score
  let maxPossibleScore := if getOpt options "playerMilestones" then
    maxPossibleScore + weights.playerMilestones else maxPossibleScore
  let score := if getOpt options "seasonalContext" then
    score + calculateSeasonalContextScore game * weights.seasonalContext else score
  let maxPossibleScore := if getOpt options "seasonalContext" then
    maxPossibleScore + weights.seasonalContext else maxPossibleScore
  if maxPossibleScore > 0 then jsRound (score / maxPossibleScore * 100) else 0

/-- A scoring factor: its option name, weight, game-applicability gate and
sub-score function, for the specification-level sum form of the scorer. -/
structure Factor where
  name : String
  weight : ℚ
  applicable : RGame → Bool
  sub : RivalryState → RGame → ℚ

/-- The thirteen factors in the order `calculateGameScore` accumulates them;
only the extra-innings factor has a non-trivial applicability gate. -/
def factorList : List Factor :=
  [{ name := "closeGames", weight := weights.closeGame,
     applicable := fun _ => true, sub := fun _ g => calculateCloseGameScore g },
   { name := "leadChanges", weight := weights.leadChanges,
     applicable := fun _ => true, sub := fun _ g => calculateLeadChangesScore g },
   { name := "lateGameDrama", weight := weights.lateGameDrama,
     applicable := fun _ => true, sub := fun _ g => calculateLateGameDramaScore g },
   { name := "comebackWins", weight := weights.comebackWin,
     applicable := fun _ => true, sub := fun _ g => calculateComebackScore g },
   { name := "extraInnings", weight := weights.extraInnings,
     applicable := fun g => g.isExtraInnings, sub := fun _ g => calculateExtraInningsScore g },
   { name := "highScoring", weight := weights.highScoring,
     applicable := fun _ => true, sub := fun _ g => calculateHighScoringScore g },
   { name := "teamRankings", weight := weights.teamRankings,
     applicable := fun _ => true, sub := fun _ g => calculateRankingsScore g },
   { name := "hits", weight := weights.hits,
     applicable := fun _ => true, sub := fun _ g => calculateHitsScore g },
   { name := "errors", weight := weights.errors,
     applicable := fun _ => true, sub := fun _ g => calculateErrorsScore g },
   { name := "scoringDistribution", weight := weights.scoringDistribution,
     applicable := fun _ => true, sub := fun _ g => calculateScoringDistributionScore g },
   { name := "rivalryGame", weight := weights.rivalryGame,
     applicable := fun _ => true, sub := fun st g => calculateRivalryScore st g },
   { name := "playerMilestones", weight := weights.playerMilestones,
     applicable := fun _ => true, sub := fun _ g => calculatePlayerMilestonesScore g },
   { name := "seasonalContext", weight := weights.seasonalContext,
     applicable := fun _ => true, sub := fun _ g => calculateSeasonalContextScore g }]

/-- A factor contributes (to numerator and denominator alike) exactly when its
option flag is set and its applicability gate holds. -/
def factorEnabled (options : RankOptions) (game : RGame) (f : Factor) : Bool :=
  getOpt options f.name && f.applicable game

/-- The specification-level numerator: the sum of `subScore × weight` over the
enabled applicable factors. -/
def specNumerator (st : RivalryState) (game : RGame) (options : RankOptions) : ℚ :=
  ((factorList.filter (factorEnabled options game)).map fun f => f.sub st game * f.weight).sum

/-- The specification-level denominator: the sum of the same factors' weights. -/
def specDenominator (game : RGame) (options : RankOptions) : ℚ :=
  ((factorList.filter (factorEnabled options game)).map fun f => f.weight).sum

/-- The recognized factor-option names, in accumulation order. -/
def recognizedFactorNames : List String :=
  ["closeGames", "leadChanges", "lateGameDrama", "comebackWins", "extraInnings",
   "highScoring", "teamRankings", "hits", "errors", "scoringDistribution",
   "rivalryGame", "playerMilestones", "seasonalContext"]

/-- Stable insertion into a sorted list: the ECMAScript array sort is stable,
and a stable sort's output is determined by the list and the total preorder,
so a structural stable insertion sort embeds it faithfully. -/
def stableInsert (le : RGame → RGame → Bool) (x : RGame) : List RGame → List RGame
  | [] => [x]
  | y :: ys => if le x y then x :: y :: ys else y :: stableInsert le x ys

/-- The ECMAScript stable array sort under a comparator-induced ordering. -/
def stableSort (le : RGame → RGame → Bool) : List RGame → List RGame
  | [] => []
  | x :: xs => stableInsert le x (stableSort le xs)

/-- `Ranker.rankGames(games, options)`: attach a fresh `excitementScore` to a
copy of each game and sort descending by it (the JS comparator
`b.excitementScore - a.excitementScore` under the stable array sort). -/
def rankGames (st : RivalryState) (games : List RGame) (options : RankOptions) : List RGame :=
  if games.isEmpty then []
  else
    let scoredGames := games.map fun game =>
      { game with excitementScore := calculateGameScore st game options }
    stableSort (fun a b => b.excitementScore ≤ a.excitementScore) scoredGames

/-! ## Correspondence between `countLeadChanges` and the spec-level model -/

/-- Embed a spec-level lead-change state into the implementation's state. -/
def leadStateOf (awayTeamId homeTeamId : ℕ) (s : SpecLeadState) : LeadState :=
  { leadChanges := s.count, awayScore := s.awayScore, homeScore := s.homeScore,
    currentLeader := s.leader.map (sideId awayTeamId homeTeamId) }

lemma countLeadAwayHalf_corr (a h : ℕ) (hne : a ≠ h) (s : SpecLeadState) (r : ℕ) :
    countLeadAwayHalf a (leadStateOf a h s) (some r) =
      leadStateOf a h (specLeadAwayHalf s r) := by
  obtain ⟨c, x, y, l⟩ := s
  simp only [countLeadAwayHalf, specLeadAwayHalf, leadStateOf]
  by_cases hgt : x + r > y
  · simp only [if_pos hgt]
    rcases l with _ | side
    · simp [sideId]
    · rcases side <;> simp [sideId, hne, Ne.symm hne]
  · simp [if_neg hgt]

lemma countLeadHomeHalf_corr (a h : ℕ) (hne : a ≠ h) (s : SpecLeadState) (r : ℕ) :
    countLeadHomeHalf h (leadStateOf a h s) (some r) =
      leadStateOf a h (specLeadHomeHalf s r) := by
  obtain ⟨c, x, y, l⟩ := s
  simp only [countLeadHomeHalf, specLeadHomeHalf, leadStateOf]
  by_cases hgt : y + r > x
  · simp only [if_pos hgt]
    rcases l with _ | side
    · simp [sideId]
    · rcases side <;> simp [sideId, hne, Ne.symm hne]
  · by_cases heq : y + r = x
    · simp [if_neg hgt, heq]
    · simp [if_neg hgt, heq]

lemma countLeadStep_corr (a h : ℕ) (hne : a ≠ h) (s : SpecLeadState) (inn : Inning)
    (ha : inn.away.isSome) (hh : inn.home.isSome) :
    countLeadStep a h (leadStateOf a h s) inn =
      leadStateOf a h (specLeadStep s (inn.away.getD 0, inn.home.getD 0)) := by
  obtain ⟨ra, hra⟩ := Option.isSome_iff_exists.mp ha
  obtain ⟨rh, hrh⟩ := Option.isSome_iff_exists.mp hh
  simp only [countLeadStep, specLeadStep, hra, hrh, Option.getD_some,
    countLeadAwayHalf_corr a h hne, countLeadHomeHalf_corr a h hne]

lemma countLead_foldl_corr (a h : ℕ) (hne : a ≠ h) :
    ∀ (innings : List Inning), (∀ i ∈ innings, i.away.isSome ∧ i.home.isSome) →
      ∀ s : SpecLeadState,
        innings.foldl (countLeadStep a h) (leadStateOf a h s) =
          leadStateOf a h (innings.foldl
            (fun t i => specLeadStep t (i.away.getD 0, i.home.getD 0)) s)
  | [], _, s => rfl
  | i :: rest, hfull, s => by
    have hi := hfull i (List.mem_cons_self i rest)
    have hrest : ∀ j ∈ rest, j.away.isSome ∧ j.home.isSome :=
      fun j hj => hfull j (List.mem_cons_of_mem i hj)
    simp only [List.foldl_cons, countLeadStep_corr a h hne s i hi.1 hi.2]
    exact countLead_foldl_corr a h hne rest hrest _

/-- C2: on every linescore whose half-inning run counts are present,
`countLeadChanges` computes exactly the specification's walk — away runs
added and re-evaluated first, then home runs with the tie-reset of the
leader, a change counted only when the previous leader was the opposite side
(never when no side previously led). -/
theorem countLeadChanges_eq_spec (innings : List Inning) (awayTeamId homeTeamId : ℕ)
    (hne : awayTeamId ≠ homeTeamId)
    (hfull : ∀ i ∈ innings, i.away.isSome ∧ i.home.isSome) :
    countLeadChanges innings awayTeamId homeTeamId =
      specLeadChanges (innings.map fun i => (i.away.getD 0, i.home.getD 0)) := by
  have h0 : leadStateOf awayTeamId homeTeamId
      { count := 0, awayScore := 0, homeScore := 0, leader := none } =
      { leadChanges := 0, awayScore := 0, homeScore := 0, currentLeader := none } := rfl
  simp only [countLeadChanges, specLeadChanges, List.foldl_map, ← h0,
    countLead_foldl_corr awayTeamId homeTeamId hne innings hfull]
  rfl

/-- A seesaw game used as a concrete instance: away leads after the 1st, home
takes the lead in the 2nd, away retakes it in the 3rd. -/
def seesawInnings : List Inning :=
  [{ num := 1, away := some 1, home := some 0 },
   { num := 2, away := some 0, home := some 2 },
   { num := 3, away := some 2, home := some 0 }]

/-- Witness for C2 at a concrete seesaw game (two genuine lead changes). -/
theorem countLeadChanges_eq_spec_witness :
    countLeadChanges seesawInnings 1 2 =
      specLeadChanges (seesawInnings.map fun i => (i.away.getD 0, i.home.getD 0)) ∧
    countLeadChanges seesawInnings 1 2 = 2 :=
  ⟨countLeadChanges_eq_spec seesawInnings 1 2 (by decide) (by decide), by decide⟩

/-- C3: for a completed game with a non-empty linescore, `isWalkoffGame` holds
iff the home team won, the last inning is the 9th or later, and the home score
minus the home runs of that last inning is at most the away score; an empty
linescore yields `false`. -/
theorem isWalkoffGame_iff (innings : List Inning) (awayScore homeScore : ℤ) :
    (innings = [] → isWalkoffGame innings awayScore homeScore = false) ∧
    (∀ lastInning, innings.getLast? = some lastInning →
      (isWalkoffGame innings awayScore homeScore = true ↔
        awayScore < homeScore ∧ 9 ≤ lastInning.num ∧
          homeScore - (lastInning.home.getD 0 : ℕ) ≤ awayScore)) := by
  constructor
  · intro h
    subst h
    rfl
  · intro lastInning hlast
    simp only [isWalkoffGame, hlast]
    split_ifs with h1 h2
    · simp only [Bool.false_eq_true, false_iff]
      rintro ⟨hlt, -, -⟩
      omega
    · simp only [Bool.false_eq_true, false_iff]
      rintro ⟨-, hge, -⟩
      omega
    · simp only [decide_eq_true_eq]
      constructor
      · intro hc
        exact ⟨by omega, by omega, hc⟩
      · rintro ⟨-, -, hc⟩
        exact hc

/-- Scenario B: home wins 5–4, reaching the 9th trailing 4–3 and scoring 2. -/
def walkoffInnings : List Inning :=
  [{ num := 1, away := some 0, home := some 0 },
   { num := 2, away := some 1, home := some 0 },
   { num := 3, away := some 0, home := some 1 },
   { num := 4, away := some 1, home := some 0 },
   { num := 5, away := some 0, home := some 1 },
   { num := 6, away := some 1, home := some 0 },
   { num := 7, away := some 0, home := some 1 },
   { num := 8, away := some 1, home := some 0 },
   { num := 9, away := some 0, home := some 2 }]

/-- Witness for C3 at Scenario B: the iff instantiates and yields a walk-off. -/
theorem isWalkoffGame_iff_witness : isWalkoffGame walkoffInnings 4 5 = true :=
  ((isWalkoffGame_iff walkoffInnings 4 5).2
    { num := 9, away := some 0, home := some 2 } (by decide)).mpr (by decide)

/-- A game where the away side scores in the 1st inning and leads throughout. -/
def wireToWireInnings : List Inning :=
  [{ num := 1, away := some 1, home := some 0 },
   { num := 2, away := some 0, home := some 0 },
   { num := 3, away := some 0, home := some 0 },
   { num := 4, away := some 0, home := some 0 },
   { num := 5, away := some 0, home := some 0 },
   { num := 6, away := some 0, home := some 0 },
   { num := 7, away := some 0, home := some 0 },
   { num := 8, away := some 0, home := some 0 },
   { num := 9, away := some 0, home := some 0 }]

/-- C10: the two lead-change-derived fields follow different rules and can
disagree: on a wire-to-wire game `countLeadChanges` is 0 (a lead taken from
no prior leader is not a change) while `findLastLeadChangeInning` records
inning 1 (any leader differing from the previous full-inning evaluation,
including from the initial no-leader state, is recorded). -/
theorem leadChange_fields_disagree :
    countLeadChanges wireToWireInnings 1 2 = 0 ∧
    findLastLeadChangeInning wireToWireInnings = 1 := by
  decide

/-- C7 (failing input): a future-game probable pitcher with no name fields. -/
def namelessPitcher : PersonRec :=
  { id := 7, fullName := none, firstName := none, lastName := none, name := none }

/-- C7: `extractFuturePitcher` can never produce the `"TBD"` placeholder: with
no name fields present the interpolated `` `${firstName} ${lastName}` `` is
the non-empty (hence truthy) string `"undefined undefined"`, so the
`|| 'TBD'` fallback is unreachable. -/
theorem extractFuturePitcher_tbd_unreachable :
    extractFuturePitcher (some namelessPitcher) =
      some { id := 7, name := "undefined undefined" } ∧
    "undefined undefined" ≠ "TBD" := by
  decide

/-! ## C4: comeback invariant -/

/-- The team id of the strict winner by final score, if any. -/
def winnerTeamId (awayTeamId homeTeamId : ℕ) (finalAwayScore finalHomeScore : ℤ) : Option ℕ :=
  if finalAwayScore > finalHomeScore then some awayTeamId
  else if finalHomeScore > finalAwayScore then some homeTeamId
  else none

lemma fmlac_comeback (innings : List Inning) (aid hid : ℕ) (finalAway finalHome : ℤ)
    (hne : aid ≠ hid)
    (hcb : (findMaximumLeadAndComeback innings aid hid finalAway finalHome).2 ≠ none) :
    3 ≤ (findMaximumLeadAndComeback innings aid hid finalAway finalHome).1 ∧
    (maxLeadWalk innings aid hid).maxLeadTeamId ≠
      winnerTeamId aid hid finalAway finalHome ∧
    (findMaximumLeadAndComeback innings aid hid finalAway finalHome).2 =
      winnerTeamId aid hid finalAway finalHome := by
  match innings with
  | [] => simp [findMaximumLeadAndComeback] at hcb
  | i :: rest =>
    simp only [findMaximumLeadAndComeback] at hcb ⊢
    by_cases h3 : (maxLeadWalk (i :: rest) aid hid).maxLead ≥ 3
    · by_cases hA : finalAway > finalHome ∧
          (maxLeadWalk (i :: rest) aid hid).maxLeadTeamId = some hid
      · refine ⟨h3, ?_, ?_⟩
        · rw [hA.2]
          simp only [winnerTeamId, if_pos hA.1]
          simp [Ne.symm hne]
        · simp only [if_pos h3, if_pos hA, winnerTeamId, if_pos hA.1]
      · by_cases hB : finalHome > finalAway ∧
            (maxLeadWalk (i :: rest) aid hid).maxLeadTeamId = some aid
        · have hnaw : ¬finalAway > finalHome := by omega
          refine ⟨h3, ?_, ?_⟩
          · rw [hB.2]
            simp only [winnerTeamId, if_neg hnaw, if_pos hB.1]
            simp [hne]
          · simp only [if_pos h3, if_neg hA, if_pos hB, winnerTeamId, if_neg hnaw,
              if_pos hB.1]
        · exfalso
          simp [h3, hA, hB] at hcb
    · simp [h3] at hcb

/-- C4: whenever normalization flags a comeback win, the maximum lead was at
least 3 runs, the side that held that maximum lead during the walk is not the
winning side, and `comebackTeamId` is the winning side's team id. -/
theorem processGameData_comeback_inv (raw : RawGame)
    (hne : raw.away.teamId ≠ raw.home.teamId)
    (hcb : (processGameData raw).hasComebackWin = true) :
    3 ≤ (processGameData raw).maxLead ∧
    (maxLeadWalk raw.innings raw.away.teamId raw.home.teamId).maxLeadTeamId ≠
      winnerTeamId raw.away.teamId raw.home.teamId raw.away.score raw.home.score ∧
    (processGameData raw).comebackTeamId =
      winnerTeamId raw.away.teamId raw.home.teamId raw.away.score raw.home.score := by
  have hml : (processGameData raw).maxLead =
      (findMaximumLeadAndComeback raw.innings raw.away.teamId raw.home.teamId
        raw.away.score raw.home.score).1 := by
    simp [processGameData]
  have hct : (processGameData raw).comebackTeamId =
      (findMaximumLeadAndComeback raw.innings raw.away.teamId raw.home.teamId
        raw.away.score raw.home.score).2 := by
    simp [processGameData]
  have hcb' : (findMaximumLeadAndComeback raw.innings raw.away.teamId raw.home.teamId
      raw.away.score raw.home.score).2 ≠ none := by
    have : (processGameData raw).hasComebackWin =
        decide ((processGameData raw).comebackTeamId ≠ none) := by
      simp [processGameData]
    rw [this, decide_eq_true_eq, hct] at hcb
    exact hcb
  obtain ⟨h1, h2, h3⟩ := fmlac_comeback raw.innings raw.away.teamId raw.home.teamId
    raw.away.score raw.home.score hne hcb'
  exact ⟨hml ▸ h1, h2, hct ▸ h3⟩

/-- Scenario C as a raw record: away leads 5–0 through the 5th, home wins 6–5. -/
def rawComebackGame : RawGame :=
  { gamePk := 1, gameDate := 0, detailedState := "Final",
    away := { teamId := 1, teamName := "Away", score := 5, probablePitcher := none,
              recordWins := none, recordLosses := none },
    home := { teamId := 2, teamName := "Home", score := 6, probablePitcher := none,
              recordWins := none, recordLosses := none },
    innings :=
      [{ num := 1, away := some 2, home := some 0 },
       { num := 2, away := some 3, home := some 0 },
       { num := 3, away := some 0, home := some 0 },
       { num := 4, away := some 0, home := some 0 },
       { num := 5, away := some 0, home := some 0 },
       { num := 6, away := some 0, home := some 3 },
       { num := 7, away := some 0, home := some 0 },
       { num := 8, away := some 0, home := some 3 },
       { num := 9, away := some 0, home := some 0 }],
    awayHits := some 7, awayErrors := some 0, homeHits := some 9, homeErrors := some 1,
    venue := none, inning := none }

/-- Witness for C4 at Scenario C. -/
theorem processGameData_comeback_inv_witness :
    3 ≤ (processGameData rawComebackGame).maxLead ∧
    (maxLeadWalk rawComebackGame.innings rawComebackGame.away.teamId
      rawComebackGame.home.teamId).maxLeadTeamId ≠
      winnerTeamId rawComebackGame.away.teamId rawComebackGame.home.teamId
        rawComebackGame.away.score rawComebackGame.home.score ∧
    (processGameData rawComebackGame).comebackTeamId =
      winnerTeamId rawComebackGame.away.teamId rawComebackGame.home.teamId
        rawComebackGame.away.score rawComebackGame.home.score :=
  processGameData_comeback_inv rawComebackGame (by decide) (by decide)

/-! ## C8: the retained high-strikeout pitcher -/

/-- Whether a box-score player qualifies for the high-strikeout milestone
(a pitching line with 10 or more strikeouts). -/
def qualifiesHighK (p : BoxPlayer) : Bool :=
  match p.pitching with
  | none => false
  | some line => line.strikeOuts ≥ 10

/-- The milestone entry the loop builds for a qualifying pitcher. -/
def highKEntry (p : BoxPlayer) : KEntry :=
  { id := p.person.id, name := getPlayerName (personAsPlayer p.person),
    strikeOuts := (p.pitching.map PitchingLine.strikeOuts).getD 0 }

/-- The last qualifying high-strikeout pitcher of a player list, if any. -/
def lastQualK : List BoxPlayer → Option KEntry
  | [] => none
  | p :: rest =>
    match lastQualK rest with
    | some e => some e
    | none => if qualifiesHighK p then some (highKEntry p) else none

lemma milestonePlayerStep_highK (ms : SideMilestones) (p : BoxPlayer) :
    (milestonePlayerStep ms p).highStrikeoutPitcher =
      if qualifiesHighK p then some (highKEntry p) else ms.highStrikeoutPitcher := by
  rcases hb : p.batting with _ | bl <;> rcases hp : p.pitching with _ | pl <;>
    simp only [milestonePlayerStep, qualifiesHighK, highKEntry, hb, hp] <;>
    split_ifs <;> simp_all <;> omega

lemma milestones_foldl_highK :
    ∀ (players : List BoxPlayer) (ms : SideMilestones),
      (players.foldl milestonePlayerStep ms).highStrikeoutPitcher =
        match lastQualK players with
        | some e => some e
        | none => ms.highStrikeoutPitcher
  | [], ms => rfl
  | p :: rest, ms => by
    rw [List.foldl_cons, milestones_foldl_highK rest, milestonePlayerStep_highK]
    simp only [lastQualK]
    rcases lastQualK rest with _ | e
    · split_ifs <;> rfl
    · rfl

lemma processSideMilestones_highK (team opposingTeam : BoxTeam) :
    (processSideMilestones team opposingTeam).highStrikeoutPitcher =
      lastQualK team.players := by
  have hinit : ∀ init : SideMilestones, init.highStrikeoutPitcher = none →
      (team.players.foldl milestonePlayerStep init).highStrikeoutPitcher =
        lastQualK team.players := by
    intro init h0
    rw [milestones_foldl_highK team.players init, h0]
    rcases lastQualK team.players with _ | e <;> rfl
  apply hinit
  simp only [emptySideMilestones]
  split_ifs with h
  · rcases opposingTeam.teamStats.bind TeamStats.batting with _ | b
    · rfl
    · rcases team.teamStats.bind TeamStats.fielding with _ | f
      · rfl
      · dsimp only
        split_ifs <;> rfl
  · rfl

/-- C8 (amended): per side, the retained `highStrikeoutPitcher` is the *last*
qualifying pitcher (≥10 strikeouts) in the side's player iteration order —
each qualifying pitcher overwrites the previous — and `null` when no pitcher
qualifies. -/
theorem processPlayerMilestones_highK_last (teams : BoxTeams) :
    (processPlayerMilestones (some teams)).away.highStrikeoutPitcher =
      lastQualK teams.away.players ∧
    (processPlayerMilestones (some teams)).home.highStrikeoutPitcher =
      lastQualK teams.home.players := by
  constructor
  · exact processSideMilestones_highK teams.away teams.home
  · exact processSideMilestones_highK teams.home teams.away

/-- A box score with two qualifying pitchers on the away side: 12 strikeouts
first, 10 strikeouts second. -/
def twoPitcherBox : BoxTeams :=
  { away :=
      { teamStats := none,
        players :=
          [{ person := { id := 1, fullName := some "A", firstName := none,
                         lastName := none, name := none },
             batting := none, pitching := some { strikeOuts := 12 } },
           { person := { id := 2, fullName := some "B", firstName := none,
                         lastName := none, name := none },
             batting := none, pitching := some { strikeOuts := 10 } }] },
    home := { teamStats := none, players := [] } }

/-- C8 (counterexample): the side had a qualifying 12-strikeout pitcher, yet
the retained pitcher is the later 10-strikeout one — not the side's highest
strikeout count. -/
theorem processPlayerMilestones_highK_not_max :
    (processPlayerMilestones (some twoPitcherBox)).away.highStrikeoutPitcher =
      some { id := 2, name := "B", strikeOuts := 10 } ∧
    twoPitcherBox.away.players.map
      (fun p => ((p.pitching.map PitchingLine.strikeOuts).getD 0, qualifiesHighK p)) =
      [(12, true), (10, true)] := by
  decide

/-! ## C5: deduplication -/

lemma alistFind_eq_none_iff (k : ℕ × ℕ × ℕ) :
    ∀ l : List ((ℕ × ℕ × ℕ) × PGame), alistFind k l = none ↔ ∀ e ∈ l, e.1 ≠ k
  | [] => by simp [alistFind]
  | e :: rest => by
    simp only [alistFind, List.mem_cons]
    split_ifs with he
    · simp only [reduceCtorEq, false_iff, not_forall]
      exact ⟨e, Or.inl rfl, by simp [he]⟩
    · rw [alistFind_eq_none_iff k rest]
      constructor
      · rintro h x (rfl | hx)
        · exact he
        · exact h x hx
      · intro h x hx
        exact h x (Or.inr hx)

lemma alistFind_mem {k : ℕ × ℕ × ℕ} {g : PGame} :
    ∀ {l : List ((ℕ × ℕ × ℕ) × PGame)}, alistFind k l = some g → (k, g) ∈ l := by
  intro l
  induction l with
  | nil => intro h; simp [alistFind] at h
  | cons e rest ih =>
    intro h
    simp only [alistFind] at h
    split_ifs at h with he
    · obtain ⟨rfl⟩ := Option.some_injective _ h
      rcases e with ⟨k', g'⟩
      simp only at he
      subst he
      exact List.mem_cons_self _ _
    · exact List.mem_cons_of_mem _ (ih h)

lemma alistFind_of_mem :
    ∀ {l : List ((ℕ × ℕ × ℕ) × PGame)}, (l.map Prod.fst).Nodup →
      ∀ {e}, e ∈ l → alistFind e.1 l = some e.2 := by
  intro l
  induction l with
  | nil => intro _ e he; simp at he
  | cons x rest ih =>
    intro hnd e he
    simp only [List.map_cons, List.nodup_cons] at hnd
    rcases List.mem_cons.mp he with rfl | he'
    · simp [alistFind]
    · have hne : x.1 ≠ e.1 := by
        intro hkey
        exact hnd.1 (hkey ▸ List.mem_map_of_mem Prod.fst he')
      simp only [alistFind, if_neg hne]
      exact ih hnd.2 he'

/-- The invariant of the deduplication fold: every stored entry is a processed
game tagged by its own key, the keys are pairwise distinct, each entry
dominates the total runs of every processed game of its key, and every
processed game's key is stored. -/
def DedupInv (processed : List PGame) (acc : List ((ℕ × ℕ × ℕ) × PGame)) : Prop :=
  (∀ e ∈ acc, e.2 ∈ processed ∧ gameKey e.2 = e.1) ∧
  (acc.map Prod.fst).Nodup ∧
  (∀ e ∈ acc, ∀ g ∈ processed, gameKey g = e.1 → g.totalRuns ≤ e.2.totalRuns) ∧
  (∀ g ∈ processed, ∃ e ∈ acc, e.1 = gameKey g)

lemma dedupStep_inv {processed : List PGame} {acc : List ((ℕ × ℕ × ℕ) × PGame)}
    (hinv : DedupInv processed acc) (game : PGame) :
    DedupInv (processed ++ [game]) (dedupStep acc game) := by
  obtain ⟨hmem, hnd, hmax, hcov⟩ := hinv
  rcases hfind : alistFind (gameKey game) acc with _ | existing <;>
    simp only [dedupStep, hfind]
  · -- fresh key: append a new entry
    have hfresh : ∀ e ∈ acc, e.1 ≠ gameKey game :=
      (alistFind_eq_none_iff (gameKey game) acc).mp hfind
    refine ⟨?_, ?_, ?_, ?_⟩
    · intro e he
      rcases List.mem_append.mp he with h | h
      · exact ⟨List.mem_append_left _ (hmem e h).1, (hmem e h).2⟩
      · simp only [List.mem_singleton] at h
        subst h
        exact ⟨List.mem_append_right _ (List.mem_singleton_self game), rfl⟩
    · rw [List.map_append]
      refine List.Nodup.append hnd (by simp) ?_
      intro k hk hk'
      simp only [List.map_cons, List.map_nil, List.mem_singleton] at hk'
      obtain ⟨e, he, rfl⟩ := List.mem_map.mp hk
      exact hfresh e he hk'
    · intro e he g hg hkey
      rcases List.mem_append.mp he with h | h
      · rcases List.mem_append.mp hg with h' | h'
        · exact hmax e h g h' hkey
        · simp only [List.mem_singleton] at h'
          subst h'
          exact absurd hkey (Ne.symm (hfresh e h))
      · simp only [List.mem_singleton] at h
        subst h
        rcases List.mem_append.mp hg with h' | h'
        · obtain ⟨e', he', hke'⟩ := hcov g h'
          exact absurd (hke'.trans hkey) (hfresh e' he')
        · simp only [List.mem_singleton] at h'
          subst h'
          rfl
    · intro g hg
      rcases List.mem_append.mp hg with h | h
      · obtain ⟨e, he, hke⟩ := hcov g h
        exact ⟨e, List.mem_append_left _ he, hke⟩
      · simp only [List.mem_singleton] at h
        subst h
        exact ⟨(gameKey g, g), List.mem_append_right _ (by simp), rfl⟩
  · have hex_mem : (gameKey game, existing) ∈ acc := alistFind_mem hfind
    split_ifs with hgt
    · -- overwrite the entry in place
      refine ⟨?_, ?_, ?_, ?_⟩
      · intro e he
        obtain ⟨p, hp, rfl⟩ := List.mem_map.mp he
        by_cases hk : p.1 = gameKey game
        · simp only [if_pos hk]
          exact ⟨List.mem_append_right _ (List.mem_singleton_self game), by simp⟩
        · simp only [if_neg hk]
          exact ⟨List.mem_append_left _ (hmem p hp).1, (hmem p hp).2⟩
      · have : ((acc.map fun p => if p.1 = gameKey game then (gameKey game, game) else p).map
            Prod.fst) = acc.map Prod.fst := by
          rw [List.map_map]
          refine List.map_congr_left ?_
          intro p _
          by_cases hk : p.1 = gameKey game
          · simp [hk]
          · simp [hk]
        rw [this]
        exact hnd
      · intro e he g hg hkey
        obtain ⟨p, hp, rfl⟩ := List.mem_map.mp he
        by_cases hk : p.1 = gameKey game
        · simp only [if_pos hk] at hkey ⊢
          rcases List.mem_append.mp hg with h' | h'
          · have h2 : g.totalRuns ≤ existing.totalRuns :=
              hmax (gameKey game, existing) hex_mem g h' hkey
            show g.totalRuns ≤ game.totalRuns
            omega
          · simp only [List.mem_singleton] at h'
            subst h'
            rfl
        · simp only [if_neg hk] at hkey ⊢
          rcases List.mem_append.mp hg with h' | h'
          · exact hmax p hp g h' hkey
          · simp only [List.mem_singleton] at h'
            subst h'
            exact absurd hkey.symm hk
      · intro g hg
        rcases List.mem_append.mp hg with h | h
        · obtain ⟨e, he, hke⟩ := hcov g h
          refine ⟨_, List.mem_map_of_mem _ he, ?_⟩
          by_cases hk : e.1 = gameKey game
          · simp only [if_pos hk]
            exact hk.symm.trans hke
          · simp only [if_neg hk]
            exact hke
        · simp only [List.mem_singleton] at h
          subst h
          refine ⟨_, List.mem_map_of_mem _ hex_mem, ?_⟩
          simp
    · -- keep the stored entry
      refine ⟨?_, ?_, ?_, ?_⟩
      · intro e he
        exact ⟨List.mem_append_left _ (hmem e he).1, (hmem e he).2⟩
      · exact hnd
      · intro e he g hg hkey
        rcases List.mem_append.mp hg with h' | h'
        · exact hmax e he g h' hkey
        · simp only [List.mem_singleton] at h'
          subst h'
          have hfe : alistFind e.1 acc = some e.2 := alistFind_of_mem hnd he
          rw [← hkey] at hfe
          rw [hfind] at hfe
          obtain ⟨rfl⟩ := Option.some_injective _ hfe
          omega
      · intro g hg
        rcases List.mem_append.mp hg with h | h
        · exact hcov g h
        · simp only [List.mem_singleton] at h
          subst h
          exact ⟨(gameKey g, existing), hex_mem, rfl⟩

lemma dedup_foldl_inv :
    ∀ (games : List PGame) (processed : List PGame) (acc : List ((ℕ × ℕ × ℕ) × PGame)),
      DedupInv processed acc → DedupInv (processed ++ games) (games.foldl dedupStep acc)
  | [], processed, acc, h => by simpa using h
  | g :: gs, processed, acc, h => by
    have h' := dedup_foldl_inv gs (processed ++ [g]) (dedupStep acc g) (dedupStep_inv h g)
    simpa using h'

/-- C5: `deduplicateGames` returns only input games, at most one game per
(calendar day, unordered team-id pair) key, each returned game having the
maximal `totalRuns` among the input games sharing its key, and every input
game's key being represented by some returned game. -/
theorem deduplicateGames_spec (games : List PGame) :
    (∀ g ∈ deduplicateGames games, g ∈ games) ∧
    ((deduplicateGames games).map gameKey).Nodup ∧
    (∀ g ∈ deduplicateGames games, ∀ g' ∈ games, gameKey g' = gameKey g →
      g'.totalRuns ≤ g.totalRuns) ∧
    (∀ g' ∈ games, ∃ g ∈ deduplicateGames games, gameKey g = gameKey g') := by
  have hbase : DedupInv [] [] := by
    refine ⟨?_, ?_, ?_, ?_⟩ <;> simp
  have hinv := dedup_foldl_inv games [] [] hbase
  rw [List.nil_append] at hinv
  obtain ⟨hmem, hnd, hmax, hcov⟩ := hinv
  refine ⟨?_, ?_, ?_, ?_⟩
  · intro g hg
    obtain ⟨e, he, rfl⟩ := List.mem_map.mp hg
    exact (hmem e he).1
  · have : (deduplicateGames games).map gameKey =
        (games.foldl dedupStep []).map Prod.fst := by
      simp only [deduplicateGames, List.map_map]
      refine List.map_congr_left ?_
      intro e he
      exact (hmem e he).2
    rw [this]
    exact hnd
  · intro g hg g' hg' hkey
    obtain ⟨e, he, rfl⟩ := List.mem_map.mp hg
    exact hmax e he g' hg' (hkey.trans (hmem e he).2)
  · intro g' hg'
    obtain ⟨e, he, hke⟩ := hcov g' hg'
    exact ⟨e.2, List.mem_map_of_mem _ he, (hmem e he).2.trans hke⟩

/-- A raw final game between teams 1 and 2, parameterized by timestamp and
the away side's score (the home side scores 0). -/
def rawDayGame (ts : ℕ) (awayScore : ℤ) : RawGame :=
  { gamePk := ts, gameDate := ts, detailedState := "Final",
    away := { teamId := 1, teamName := "Away", score := awayScore,
              probablePitcher := none, recordWins := none, recordLosses := none },
    home := { teamId := 2, teamName := "Home", score := 0, probablePitcher := none,
              recordWins := none, recordLosses := none },
    innings := [], awayHits := none, awayErrors := none, homeHits := none,
    homeErrors := none, venue := none, inning := none }

/-- Witness for C5 (Scenario D): two records for the same teams on the same
calendar day with 7 and 11 total runs; only the 11-run record survives. -/
theorem deduplicateGames_spec_witness :
    (deduplicateGames
      [processGameData (rawDayGame 100 7), processGameData (rawDayGame 50000000 11)]).map
        PGame.totalRuns = [11] ∧
    ∀ g ∈ deduplicateGames
        [processGameData (rawDayGame 100 7), processGameData (rawDayGame 50000000 11)],
      g ∈ [processGameData (rawDayGame 100 7), processGameData (rawDayGame 50000000 11)] :=
  ⟨by decide,
   (deduplicateGames_spec
     [processGameData (rawDayGame 100 7), processGameData (rawDayGame 50000000 11)]).1⟩

/-! ## C1, C6, C9: the scorer -/

lemma min_one_bounds {s : ℚ} (hs : 0 ≤ s) : 0 ≤ min 1 s ∧ min 1 s ≤ 1 :=
  ⟨le_min (by norm_num) hs, min_le_left _ _⟩

lemma max_unit_bounds {s c : ℚ} (h0 : 0 ≤ s) (h1 : s ≤ 1) (hc1 : c ≤ 1) :
    0 ≤ max s c ∧ max s c ≤ 1 :=
  ⟨le_trans h0 (le_max_left _ _), max_le h1 hc1⟩

lemma closeGame_bounds (g : RGame) :
    0 ≤ calculateCloseGameScore g ∧ calculateCloseGameScore g ≤ 1 := by
  unfold calculateCloseGameScore
  split_ifs with h0 h1 h2 h3
  · norm_num
  · norm_num
  · norm_num
  · norm_num
  · have hd : (4 : ℚ) ≤ (g.runDifference : ℚ) := by
      exact_mod_cast (by omega : 4 ≤ g.runDifference)
    constructor
    · exact le_max_left _ _
    · refine max_le (by norm_num) ?_
      nlinarith

lemma leadChanges_bounds (g : RGame) :
    0 ≤ calculateLeadChangesScore g ∧ calculateLeadChangesScore g ≤ 1 := by
  unfold calculateLeadChangesScore
  refine min_one_bounds ?_
  split_ifs <;> norm_num

lemma lateGameDrama_bounds (g : RGame) :
    0 ≤ calculateLateGameDramaScore g ∧ calculateLateGameDramaScore g ≤ 1 := by
  unfold calculateLateGameDramaScore
  refine min_one_bounds ?_
  split_ifs <;> norm_num

lemma extraInnings_bounds (g : RGame) :
    0 ≤ calculateExtraInningsScore g ∧ calculateExtraInningsScore g ≤ 1 := by
  unfold calculateExtraInningsScore
  dsimp only
  split_ifs <;> norm_num

lemma highScoring_bounds (g : RGame) :
    0 ≤ calculateHighScoringScore g ∧ calculateHighScoringScore g ≤ 1 := by
  unfold calculateHighScoringScore
  refine min_one_bounds ?_
  split_ifs <;> norm_num

lemma rankings_bounds (g : RGame) :
    0 ≤ calculateRankingsScore g ∧ calculateRankingsScore g ≤ 1 := by
  unfold calculateRankingsScore
  refine min_one_bounds ?_
  have hm : (0 : ℚ) ≤ max 0 ((5 -
      ((jsOrNat (g.awayTeam.ranking.map Ranking.divisionRank) 5 : ℚ) +
        (jsOrNat (g.homeTeam.ranking.map Ranking.divisionRank) 5 : ℚ)) / 2) / 4) :=
    le_max_left _ _
  split_ifs <;> linarith

lemma hits_bounds (g : RGame) :
    0 ≤ calculateHitsScore g ∧ calculateHitsScore g ≤ 1 := by
  unfold calculateHitsScore
  dsimp only
  split_ifs <;> norm_num

lemma errors_bounds (g : RGame) :
    0 ≤ calculateErrorsScore g ∧ calculateErrorsScore g ≤ 1 := by
  unfold calculateErrorsScore
  dsimp only
  split_ifs <;> norm_num

lemma comeback_bounds (g : RGame) :
    0 ≤ calculateComebackScore g ∧ calculateComebackScore g ≤ 1 := by
  unfold calculateComebackScore
  split_ifs <;> norm_num

lemma scoringDistribution_bounds (g : RGame) :
    0 ≤ calculateScoringDistributionScore g ∧ calculateScoringDistributionScore g ≤ 1 := by
  unfold calculateScoringDistributionScore
  dsimp only
  split_ifs <;> norm_num

lemma rivalry_bounds (st : RivalryState) (g : RGame) :
    0 ≤ calculateRivalryScore st g ∧ calculateRivalryScore st g ≤ 1 := by
  unfold calculateRivalryScore
  dsimp only
  split_ifs <;> norm_num

lemma milestonesMultiHR_bounds (a h : SideMilestones) {s : ℚ} (h0 : 0 ≤ s) (h1 : s ≤ 1) :
    0 ≤ milestonesMultiHRScore a h s ∧ milestonesMultiHRScore a h s ≤ 1 := by
  unfold milestonesMultiHRScore
  dsimp only
  split_ifs
  · exact max_unit_bounds h0 h1 (by norm_num)
  · exact max_unit_bounds h0 h1 (by norm_num)
  · exact max_unit_bounds h0 h1 (by norm_num)
  · exact max_unit_bounds h0 h1 (by norm_num)
  · exact ⟨h0, h1⟩

lemma milestonesHighRbi_bounds (a h : SideMilestones) {s : ℚ} (h0 : 0 ≤ s) (h1 : s ≤ 1) :
    0 ≤ milestonesHighRbiScore a h s ∧ milestonesHighRbiScore a h s ≤ 1 := by
  unfold milestonesHighRbiScore
  dsimp only
  split_ifs
  · exact max_unit_bounds h0 h1 (by norm_num)
  · exact max_unit_bounds h0 h1 (by norm_num)
  · exact max_unit_bounds h0 h1 (by norm_num)
  · exact max_unit_bounds h0 h1 (by norm_num)
  · exact ⟨h0, h1⟩

lemma milestonesHighK_bounds (a h : SideMilestones) {s : ℚ} (h0 : 0 ≤ s) (h1 : s ≤ 1) :
    0 ≤ milestonesHighKScore a h s ∧ milestonesHighKScore a h s ≤ 1 := by
  unfold milestonesHighKScore
  dsimp only
  split_ifs
  · exact max_unit_bounds h0 h1 (by norm_num)
  · exact max_unit_bounds h0 h1 (by norm_num)
  · exact max_unit_bounds h0 h1 (by norm_num)
  · exact max_unit_bounds h0 h1 (by norm_num)
  · exact ⟨h0, h1⟩

lemma playerMilestones_bounds (g : RGame) :
    0 ≤ calculatePlayerMilestonesScore g ∧ calculatePlayerMilestonesScore g ≤ 1 := by
  unfold calculatePlayerMilestonesScore
  rcases g.playerMilestones with _ | pm
  · dsimp only
    split_ifs <;> norm_num
  · dsimp only
    split_ifs with hp hn hc
    · norm_num
    · norm_num
    · have h2 := milestonesMultiHR_bounds pm.away pm.home
        (show (0 : ℚ) ≤ max 0 0.9 by norm_num) (show max (0 : ℚ) 0.9 ≤ 1 by norm_num)
      have h3 := milestonesHighRbi_bounds pm.away pm.home h2.1 h2.2
      exact milestonesHighK_bounds pm.away pm.home h3.1 h3.2
    · have h2 := milestonesMultiHR_bounds pm.away pm.home
        (le_refl (0 : ℚ)) (show (0 : ℚ) ≤ 1 by norm_num)
      have h3 := milestonesHighRbi_bounds pm.away pm.home h2.1 h2.2
      exact milestonesHighK_bounds pm.away pm.home h3.1 h3.2

lemma seasonal_bounds (g : RGame) :
    0 ≤ calculateSeasonalContextScore g ∧ calculateSeasonalContextScore g ≤ 1 := by
  unfold calculateSeasonalContextScore
  rcases g.awayTeam.detailedRanking with _ | adr <;>
    rcases g.homeTeam.detailedRanking with _ | hdr <;>
    refine min_one_bounds ?_ <;>
    split_ifs <;> (try norm_num) <;> split_ifs <;> norm_num

lemma factor_bounds (st : RivalryState) (g : RGame) :
    ∀ f ∈ factorList, (0 ≤ f.sub st g ∧ f.sub st g ≤ 1) ∧ 0 < f.weight := by
  intro f hf
  fin_cases hf
  · exact ⟨closeGame_bounds g, by norm_num [weights]⟩
  · exact ⟨leadChanges_bounds g, by norm_num [weights]⟩
  · exact ⟨lateGameDrama_bounds g, by norm_num [weights]⟩
  · exact ⟨comeback_bounds g, by norm_num [weights]⟩
  · exact ⟨extraInnings_bounds g, by norm_num [weights]⟩
  · exact ⟨highScoring_bounds g, by norm_num [weights]⟩
  · exact ⟨rankings_bounds g, by norm_num [weights]⟩
  · exact ⟨hits_bounds g, by norm_num [weights]⟩
  · exact ⟨errors_bounds g, by norm_num [weights]⟩
  · exact ⟨scoringDistribution_bounds g, by norm_num [weights]⟩
  · exact ⟨rivalry_bounds st g, by norm_num [weights]⟩
  · exact ⟨playerMilestones_bounds g, by norm_num [weights]⟩
  · exact ⟨seasonal_bounds g, by norm_num [weights]⟩

lemma ite_acc {c : Prop} [Decidable c] (x a : ℚ) :
    (if c then x + a else x) = x + (if c then a else 0) := by
  split_ifs <;> simp

lemma filter_map_sum (p : Factor → Bool) (f : Factor → ℚ) :
    ∀ l : List Factor,
      ((l.filter p).map f).sum = (l.map fun x => if p x then f x else 0).sum
  | [] => rfl
  | x :: xs => by
    simp only [List.filter_cons]
    split_ifs with h
    · simp [filter_map_sum p f xs, h]
    · simp [filter_map_sum p f xs, h]

/-- The accumulation of `calculateGameScore` is the renormalized filtered sum. -/
lemma calculateGameScore_eq_sum (st : RivalryState) (g : RGame) (o : RankOptions) :
    calculateGameScore st g o =
      if specDenominator g o > 0 then
        jsRound (specNumerator st g o / specDenominator g o * 100)
      else 0 := by
  simp only [specNumerator, specDenominator, filter_map_sum, factorList, factorEnabled,
    List.map_cons, List.map_nil, List.sum_cons, List.sum_nil, Bool.and_true]
  simp only [calculateGameScore, ite_acc, zero_add]
  ring_nf

lemma spec_sums_bounds (st : RivalryState) (g : RGame) (o : RankOptions) :
    0 ≤ specNumerator st g o ∧ specNumerator st g o ≤ specDenominator g o ∧
      0 ≤ specDenominator g o := by
  have key : ∀ l : List Factor,
      (∀ f ∈ l, (0 ≤ f.sub st g ∧ f.sub st g ≤ 1) ∧ 0 < f.weight) →
      0 ≤ ((l.map fun f => f.sub st g * f.weight).sum) ∧
        ((l.map fun f => f.sub st g * f.weight).sum) ≤ ((l.map fun f => f.weight).sum) ∧
        0 ≤ ((l.map fun f => f.weight).sum) := by
    intro l
    induction l with
    | nil => simp
    | cons x xs ih =>
      intro hl
      have hx := hl x (List.mem_cons_self x xs)
      have hxs := ih fun f hf => hl f (List.mem_cons_of_mem x hf)
      simp only [List.map_cons, List.sum_cons]
      refine ⟨?_, ?_, ?_⟩
      · have := mul_nonneg hx.1.1 (le_of_lt hx.2)
        linarith [hxs.1]
      · have hmul : x.sub st g * x.weight ≤ x.weight := by nlinarith [hx.1.2, hx.2, hx.1.1]
        linarith [hxs.2.1]
      · linarith [hxs.2.2, hx.2]
  exact key _ fun f hf => factor_bounds st g f (List.mem_of_mem_filter hf)

lemma jsRound_bounds {q : ℚ} (h0 : 0 ≤ q) (h1 : q ≤ 100) :
    0 ≤ jsRound q ∧ jsRound q ≤ 100 := by
  unfold jsRound
  constructor
  · exact Int.le_floor.mpr (by push_cast; linarith)
  · have h := Int.floor_le_floor (α := ℚ) (show q + 1/2 ≤ 201/2 by linarith)
    have h2 : ⌊(201 / 2 : ℚ)⌋ = 100 := by
      rw [Int.floor_eq_iff]
      norm_num
    omega

lemma jsRound_zero : jsRound 0 = 0 := by
  unfold jsRound
  rw [zero_add, Int.floor_eq_iff]
  norm_num

lemma jsRound_hundred : jsRound 100 = 100 := by
  unfold jsRound
  rw [show (100 : ℚ) + 1/2 = 201/2 by norm_num, Int.floor_eq_iff]
  norm_num

/-- C1: `calculateGameScore` is `round(100 · Σ subScore·weight / Σ weight)`
over the enabled applicable factors (extra innings dropping out of numerator
and denominator alike for non-extra-inning games, and a zero denominator
yielding 0); the result lies in [0, 100]; and with exactly one enabled
applicable factor whose sub-score is 1 the score is exactly 100. -/
theorem calculateGameScore_renormalized (st : RivalryState) (g : RGame) (o : RankOptions) :
    calculateGameScore st g o =
      (if specDenominator g o > 0 then
        jsRound (100 * specNumerator st g o / specDenominator g o)
      else 0) ∧
    0 ≤ calculateGameScore st g o ∧ calculateGameScore st g o ≤ 100 ∧
    ∀ f : Factor, factorList.filter (factorEnabled o g) = [f] → f.sub st g = 1 →
      calculateGameScore st g o = 100 := by
  have heq := calculateGameScore_eq_sum st g o
  have hb := spec_sums_bounds st g o
  have hround : ∀ hd : specDenominator g o > 0,
      0 ≤ jsRound (specNumerator st g o / specDenominator g o * 100) ∧
      jsRound (specNumerator st g o / specDenominator g o * 100) ≤ 100 := by
    intro hd
    refine jsRound_bounds ?_ ?_
    · exact mul_nonneg (div_nonneg hb.1 hb.2.2) (by norm_num)
    · have hle1 : specNumerator st g o / specDenominator g o ≤ 1 :=
        (div_le_one hd).mpr hb.2.1
      nlinarith
  refine ⟨?_, ?_, ?_, ?_⟩
  · rw [heq]
    split_ifs with hd
    · congr 1
      ring
    · rfl
  · rw [heq]
    split_ifs with hd
    · exact (hround hd).1
    · norm_num
  · rw [heq]
    split_ifs with hd
    · exact (hround hd).2
    · norm_num
  · intro f hf hsub
    have hfl : f ∈ factorList := by
      refine List.mem_of_mem_filter (p := factorEnabled o g) ?_
      rw [hf]
      exact List.mem_singleton_self f
    have hw := (factor_bounds st g f hfl).2
    have hN : specNumerator st g o = f.sub st g * f.weight := by
      rw [specNumerator, hf]
      simp
    have hD : specDenominator g o = f.weight := by
      rw [specDenominator, hf]
      simp
    rw [heq, hD, hN, hsub, if_pos hw,
      show (1 : ℚ) * f.weight / f.weight * 100 = 100 by field_simp]
    exact jsRound_hundred

/-- A team record with no standings enrichment, for concrete instances. -/
def plainTeam : RTeam :=
  { name := "Away", runs := none, hits := 3, errors := 0, ranking := none,
    detailedRanking := none }

/-- A tied 9-inning game with no enrichment, for concrete instances. -/
def tiedGame : RGame :=
  { awayTeam := plainTeam, homeTeam := { plainTeam with name := "Home" },
    runDifference := 0, leadChanges := 0, lastLeadChangeInning := 0, inning := 9,
    isWalkoff := false, innings := 9, isExtraInnings := false, totalRuns := 0,
    maxLead := 0, hasComebackWin := false, inningScores := [], month := 0,
    playerMilestones := none, excitementScore := 0 }

/-- The rivalry state before `loadRivalryData` has completed. -/
def rivalryUnloaded : RivalryState := { iconicRivalries := none, recentRivalries := none }

/-- The rivalry state after a load that classifies Away/Home as iconic rivals. -/
def rivalryLoaded : RivalryState :=
  { iconicRivalries := some [{ teams := ["Away", "Home"] }], recentRivalries := some [] }

/-- Witness for C1: with only the close-game factor enabled and a tied game,
the renormalized score is exactly 100. -/
theorem calculateGameScore_renormalized_witness :
    calculateGameScore rivalryUnloaded tiedGame [("closeGames", true)] = 100 :=
  (calculateGameScore_renormalized rivalryUnloaded tiedGame [("closeGames", true)]).2.2.2
    { name := "closeGames", weight := weights.closeGame,
      applicable := fun _ => true, sub := fun _ g => calculateCloseGameScore g }
    (by rfl) (by rfl)

/-- C9: an options object that enables none of the recognized factor names
scores 0 (the zero-denominator branch is guarded, so no division happens),
and options agreeing on all recognized names — whatever unrecognized names
they carry — produce identical scores. -/
theorem calculateGameScore_unrecognized_safe (st : RivalryState) (g : RGame) :
    (∀ o : RankOptions, (∀ k ∈ recognizedFactorNames, getOpt o k = false) →
      calculateGameScore st g o = 0) ∧
    (∀ o₁ o₂ : RankOptions, (∀ k ∈ recognizedFactorNames, getOpt o₁ k = getOpt o₂ k) →
      calculateGameScore st g o₁ = calculateGameScore st g o₂) := by
  constructor
  · intro o hk
    have h1 := hk "closeGames" (by simp [recognizedFactorNames])
    have h2 := hk "leadChanges" (by simp [recognizedFactorNames])
    have h3 := hk "lateGameDrama" (by simp [recognizedFactorNames])
    have h4 := hk "comebackWins" (by simp [recognizedFactorNames])
    have h5 := hk "extraInnings" (by simp [recognizedFactorNames])
    have h6 := hk "highScoring" (by simp [recognizedFactorNames])
    have h7 := hk "teamRankings" (by simp [recognizedFactorNames])
    have h8 := hk "hits" (by simp [recognizedFactorNames])
    have h9 := hk "errors" (by simp [recognizedFactorNames])
    have h10 := hk "scoringDistribution" (by simp [recognizedFactorNames])
    have h11 := hk "rivalryGame" (by simp [recognizedFactorNames])
    have h12 := hk "playerMilestones" (by simp [recognizedFactorNames])
    have h13 := hk "seasonalContext" (by simp [recognizedFactorNames])
    simp [calculateGameScore, h1, h2, h3, h4, h5, h6, h7, h8, h9, h10, h11, h12, h13]
  · intro o₁ o₂ hk
    have h1 := hk "closeGames" (by simp [recognizedFactorNames])
    have h2 := hk "leadChanges" (by simp [recognizedFactorNames])
    have h3 := hk "lateGameDrama" (by simp [recognizedFactorNames])
    have h4 := hk "comebackWins" (by simp [recognizedFactorNames])
    have h5 := hk "extraInnings" (by simp [recognizedFactorNames])
    have h6 := hk "highScoring" (by simp [recognizedFactorNames])
    have h7 := hk "teamRankings" (by simp [recognizedFactorNames])
    have h8 := hk "hits" (by simp [recognizedFactorNames])
    have h9 := hk "errors" (by simp [recognizedFactorNames])
    have h10 := hk "scoringDistribution" (by simp [recognizedFactorNames])
    have h11 := hk "rivalryGame" (by simp [recognizedFactorNames])
    have h12 := hk "playerMilestones" (by simp [recognizedFactorNames])
    have h13 := hk "seasonalContext" (by simp [recognizedFactorNames])
    simp only [calculateGameScore, h1, h2, h3, h4, h5, h6, h7, h8, h9, h10, h11, h12, h13]

/-- Witness for C9: an options object carrying only an unrecognized factor
name scores 0 without error. -/
theorem calculateGameScore_unrecognized_safe_witness :
    calculateGameScore rivalryUnloaded tiedGame [("fooBar", true)] = 0 :=
  (calculateGameScore_unrecognized_safe rivalryUnloaded tiedGame).1
    [("fooBar", true)] (by decide)

/-- C6 (counterexample): with the rivalry factor enabled, two `rankGames`
calls on the very same inputs return different scores when the hidden
module-level rivalry state changed between the calls (the asynchronous
rivalry-data load completing): 0 before the load, 100 after. -/
theorem rankGames_hidden_state_counterexample :
    rankGames rivalryUnloaded [tiedGame] [("rivalryGame", true)] ≠
      rankGames rivalryLoaded [tiedGame] [("rivalryGame", true)] := by
  have hfilter : factorList.filter (factorEnabled [("rivalryGame", true)] tiedGame) =
      [{ name := "rivalryGame", weight := weights.rivalryGame,
         applicable := fun _ => true, sub := fun st g => calculateRivalryScore st g }] := rfl
  have hsub0 : calculateRivalryScore rivalryUnloaded tiedGame = 0 := rfl
  have hsub1 : calculateRivalryScore rivalryLoaded tiedGame = 1 := rfl
  have hD : specDenominator tiedGame [("rivalryGame", true)] = 10 := by
    rw [specDenominator, hfilter]
    simp [weights]
  have hN0 : specNumerator rivalryUnloaded tiedGame [("rivalryGame", true)] = 0 := by
    rw [specNumerator, hfilter]
    simp [hsub0]
  have hN1 : specNumerator rivalryLoaded tiedGame [("rivalryGame", true)] = 10 := by
    rw [specNumerator, hfilter]
    simp [hsub1, weights]
  have h1 : calculateGameScore rivalryUnloaded tiedGame [("rivalryGame", true)] = 0 := by
    rw [calculateGameScore_eq_sum, hN0, hD, if_pos (by norm_num : (10 : ℚ) > 0),
      show (0 : ℚ) / 10 * 100 = 0 by norm_num]
    exact jsRound_zero
  have h2 : calculateGameScore rivalryLoaded tiedGame [("rivalryGame", true)] = 100 := by
    rw [calculateGameScore_eq_sum, hN1, hD, if_pos (by norm_num : (10 : ℚ) > 0),
      show (10 : ℚ) / 10 * 100 = 100 by norm_num]
    exact jsRound_hundred
  intro heq
  have hmap := congrArg (fun l => l.map RGame.excitementScore) heq
  simp only [rankGames, List.isEmpty_cons, stableSort, stableInsert, List.map_cons,
    List.map_nil, h1, h2, if_false, Bool.false_eq_true] at hmap
  exact absurd (List.head_eq_of_cons_eq hmap) (by norm_num)

/-- C6 (amended): whenever the rivalry factor is disabled, `rankGames` is
independent of the hidden rivalry state, so two calls with the same inputs —
even across a rivalry-data load — give identical scores and ordering. -/
theorem rankGames_deterministic_fixed_state (st₁ st₂ : RivalryState)
    (games : List RGame) (o : RankOptions) (h : getOpt o "rivalryGame" = false) :
    rankGames st₁ games o = rankGames st₂ games o := by
  have hsc : ∀ g : RGame, calculateGameScore st₁ g o = calculateGameScore st₂ g o := by
    intro g
    simp only [calculateGameScore, h, Bool.false_eq_true, if_false]
  simp only [rankGames, hsc]

/-- Witness for C6's amended claim: with the rivalry factor disabled, the
loaded and unloaded states rank identically. -/
theorem rankGames_deterministic_fixed_state_witness :
    rankGames rivalryUnloaded [tiedGame] [("closeGames", true)] =
      rankGames rivalryLoaded [tiedGame] [("closeGames", true)] :=
  rankGames_deterministic_fixed_state rivalryUnloaded rivalryLoaded [tiedGame]
    [("closeGames", true)] (by decide)

end GreatGames
